import Mathlib

/-! Spacecraft mission simulation.

A shallow embedding of `spacecraft_simulation.c` and theorems about it.

Modelling conventions.

* C `double` values are modelled by exact rationals (`ℚ`): every comparison and
  every arithmetic step of the source is kept, rounding is not modelled.  A
  property whose truth depends on how doubles round is outside this development.
* The program's observable output (the `printf` lines and the `log_error`
  records) is modelled by a list of `Event`s carried next to the craft in `World`.
  One event stands for one output statement of the source.
* `sleep(1)` only paces the output and has no effect on the modelled state.
* `time(NULL)` is an input: the functions that read the clock take the value read
  as a parameter.
* The forced-descent loop of `calculate_safe_return` is defined by well-founded
  recursion on its variant.  The `while` loops of `launch` and `return_to_earth`
  are run with an iteration budget and return `none` when the budget is exhausted
  before the loop condition becomes false.
-/

namespace SpacecraftSim

/-! ## The program -/

/-- Mission phases: the enum `SpacecraftState` of the source. -/
inductive SpacecraftState where
  | IDLE
  | LAUNCH
  | ORBIT
  | RETURN
  | LANDED
deriving DecidableEq, Repr

/-- Craft data: the struct `Spacecraft` of the source. -/
@[ext]
structure Spacecraft where
  state : SpacecraftState
  fuel_level : ℚ
  altitude : ℚ
  velocity : ℚ
  systems_nominal : Bool
  latitude : ℚ
  longitude : ℚ
  fault_time : Int
deriving DecidableEq

/-- Messages passed to `log_error` in the source. -/
inductive ErrorMsg where
  | fuelExhausted
  | fuelCritical
  | altitudeAboveLimit
  | systemsNotNominal
  | orbitProtection
deriving DecidableEq, Repr

/-- Output statements of the source, one constructor for each. -/
inductive Event where
  | error (msg : ErrorMsg)
  | backup
  | telemetry
  | emergency
  | critical
  | safetyStart
  | safetyLanded
  | deviation
  | launchStart
  | launchOrbit
  | launchFailed
  | orbitStart
  | orbitFault
  | orbitDone
  | returnStart
  | returnLanded
  | commandPrompt
  | confirmPrompt
  | confirmCancelled
  | invalidCommand
  | missionComplete
  | missionFailed
deriving DecidableEq, Repr

/-- The craft together with everything the program has written so far. -/
structure World where
  craft : Spacecraft
  out : List Event
deriving DecidableEq

/-- Append one output event. -/
def emit (e : Event) (w : World) : World :=
  { w with out := w.out ++ [e] }

/-- Source `log_error`: one record in the error log and on the console. -/
def log_error (msg : ErrorMsg) (w : World) : World :=
  emit (Event.error msg) w

/-- Source `activate_backup_system`. -/
def activate_backup_system (w : World) : World × Bool :=
  let w := emit Event.backup w
  ({ w with craft := { w.craft with systems_nominal := true } }, true)

/-- The local `dynamic_consumption` of `consume_fuel`. -/
def dynamic_consumption (base_consumption : ℚ) (craft : Spacecraft) : ℚ :=
  base_consumption + (craft.velocity * 0.1) + (craft.altitude * 0.01)

/-- Source `consume_fuel`. -/
def consume_fuel (base_consumption : ℚ) (w : World) : World :=
  if w.craft.fuel_level > dynamic_consumption base_consumption w.craft then
    { w with craft := { w.craft with
        fuel_level := w.craft.fuel_level - dynamic_consumption base_consumption w.craft } }
  else
    log_error ErrorMsg.fuelExhausted
      { w with craft := { w.craft with fuel_level := 0, systems_nominal := false } }

/-- Source `send_telemetry`. -/
def send_telemetry (w : World) : World :=
  emit Event.telemetry w

/-- One iteration of the forced-descent loop of `calculate_safe_return`. -/
def descent_tick (w : World) : World :=
  let w := consume_fuel 1.0 w
  let w := { w with craft := { w.craft with altitude := w.craft.altitude - 10 } }
  let w := { w with craft := { w.craft with velocity := w.craft.velocity - 0.1 } }
  let w := if w.craft.velocity < 0 then
      { w with craft := { w.craft with velocity := 0 } } else w
  send_telemetry w

/-- The loop `while (craft->altitude > 0)` of `calculate_safe_return`. -/
def descent_loop (w : World) : World :=
  if w.craft.altitude > 0 then descent_loop (descent_tick w) else w
termination_by (⌈w.craft.altitude / 10⌉).toNat
decreasing_by
  rename_i h
  have h1 : (descent_tick w).craft.altitude = w.craft.altitude - 10 := by
    unfold descent_tick consume_fuel send_telemetry log_error emit
    dsimp only
    split_ifs <;> rfl
  rw [h1]
  have h2 : (w.craft.altitude - 10) / 10 = w.craft.altitude / 10 - 1 := by ring
  rw [h2, Int.ceil_sub_one]
  have h3 : 0 < ⌈w.craft.altitude / 10⌉ := Int.ceil_pos.mpr (by positivity)
  omega

/-- The statements of `calculate_safe_return` between its fuel test and its loop. -/
def descent_entry (w : World) : World :=
  let w := emit Event.safetyStart w
  let w := { w with craft := { w.craft with velocity := 1.0 } }
  { w with craft := { w.craft with altitude := 100 } }

/-- Source `calculate_safe_return`. -/
def calculate_safe_return (w : World) : World :=
  if w.craft.fuel_level ≤ 0 then
    let w := emit Event.critical w
    let w := { w with craft := { w.craft with velocity := 0.0 } }
    let w := { w with craft := { w.craft with altitude := max (w.craft.altitude - 50) 0 } }
    let w := send_telemetry w
    log_error ErrorMsg.orbitProtection w
  else
    let w := descent_loop (descent_entry w)
    let w := { w with craft := { w.craft with state := SpacecraftState.LANDED } }
    emit Event.safetyLanded w

/-- Source `emergency_protocol`. -/
def emergency_protocol (w : World) : World :=
  calculate_safe_return (emit Event.emergency w)

/-- Source `safety_checks`: three independent tests, each on the current craft. -/
def safety_checks (w : World) : World :=
  let w := if w.craft.fuel_level ≤ 10.0 then
      emergency_protocol (log_error ErrorMsg.fuelCritical w) else w
  let w := if w.craft.altitude > 300.0 then
      emergency_protocol (log_error ErrorMsg.altitudeAboveLimit w) else w
  if !w.craft.systems_nominal then
    emergency_protocol (log_error ErrorMsg.systemsNotNominal w)
  else w

/-- Source `validate_return_route`. -/
def validate_return_route (w : World) : World :=
  let w := if w.craft.latitude > 90.0 then
      { w with craft := { w.craft with latitude := 90.0 } } else w
  let w := if w.craft.latitude < -90.0 then
      { w with craft := { w.craft with latitude := -90.0 } } else w
  let w := if w.craft.longitude > 180.0 then
      { w with craft := { w.craft with longitude := w.craft.longitude - 360.0 } } else w
  let w := if w.craft.longitude < -180.0 then
      { w with craft := { w.craft with longitude := w.craft.longitude + 360.0 } } else w
  let w := if w.craft.altitude > 300.0 ∨ w.craft.altitude < 0.0 then
      let w := emit Event.deviation w
      { w with craft := { w.craft with altitude := 100.0, velocity := 1.0 } }
    else w
  send_telemetry w

/-- Source `initialize_spacecraft`: every field of the craft is overwritten, so the
result does not depend on the craft passed in. -/
def initialize_spacecraft : Spacecraft :=
  { state := SpacecraftState.IDLE
    fuel_level := 100.0
    altitude := 0.0
    velocity := 0.0
    systems_nominal := true
    latitude := 37.1054
    longitude := 28.3271
    fault_time := 0 }

/-- The world at the start of `main`, after `initialize_spacecraft`: nothing written
yet. -/
def mission_start : World :=
  { craft := initialize_spacecraft, out := [] }

/-- A `while (cond) body` loop run with an iteration budget: `none` when the budget
is used up while the condition still holds. -/
def while_loop (cond : World → Bool) (body : World → World) : Nat → World → Option World
  | 0, w => if cond w then none else some w
  | n + 1, w => if cond w then while_loop cond body n (body w) else some w

/-- Loop condition of `launch`: `altitude < 100 && fuel_level > 0`. -/
def launch_cond (w : World) : Bool :=
  decide (w.craft.altitude < 100) && decide (w.craft.fuel_level > 0)

/-- Loop body of `launch`. -/
def launch_tick (w : World) : World :=
  let w := consume_fuel 2.0 w
  let w := { w with craft := { w.craft with altitude := w.craft.altitude + 10 } }
  let w := { w with craft := { w.craft with velocity := w.craft.velocity + 1 } }
  let w := send_telemetry w
  safety_checks w

/-- The part of `launch` before its loop. -/
def launch_entry (w : World) : World :=
  let w := emit Event.launchStart w
  { w with craft := { w.craft with state := SpacecraftState.LAUNCH } }

/-- The part of `launch` after its loop. -/
def launch_exit (w : World) : World :=
  if w.craft.fuel_level > 0 then
    let w := emit Event.launchOrbit w
    { w with craft := { w.craft with state := SpacecraftState.ORBIT } }
  else
    let w := emit Event.launchFailed w
    { w with craft := { w.craft with state := SpacecraftState.IDLE } }

/-- Source `launch`, with an iteration budget for its loop. -/
def launch (n : Nat) (w : World) : Option World :=
  (while_loop launch_cond launch_tick n (launch_entry w)).map launch_exit

/-- Source `update_coordinates`. -/
def update_coordinates (w : World) : World :=
  let w := { w with craft :=
    { w.craft with longitude := w.craft.longitude + w.craft.velocity * 0.01 } }
  let w := { w with craft :=
    { w.craft with latitude := w.craft.latitude + w.craft.velocity * 0.005 } }
  let w := if w.craft.longitude > 180.0 then
      { w with craft := { w.craft with longitude := w.craft.longitude - 360.0 } } else w
  let w := if w.craft.longitude < -180.0 then
      { w with craft := { w.craft with longitude := w.craft.longitude + 360.0 } } else w
  let w := if w.craft.latitude > 90.0 then
      { w with craft := { w.craft with latitude := 90.0 } } else w
  if w.craft.latitude < -90.0 then
    { w with craft := { w.craft with latitude := -90.0 } } else w

/-- The work of one stabilization iteration of `orbit`, after its systems test. -/
def orbit_tick (w : World) : World :=
  let w := consume_fuel 1.0 w
  let w := update_coordinates w
  let w := validate_return_route w
  send_telemetry w

/-- The `for` loop of `orbit` with `k` iterations left; `now` is the value of
`time(NULL)`.  A systems fault returns from `orbit` at once. -/
def orbit_loop (now : Int) : Nat → World → World
  | 0, w => emit Event.orbitDone w
  | k + 1, w =>
    if !w.craft.systems_nominal then
      let w := emit Event.orbitFault w
      { w with craft := { w.craft with fault_time := now } }
    else orbit_loop now k (orbit_tick w)

/-- Source `orbit`. -/
def orbit (now : Int) (w : World) : World :=
  orbit_loop now 5 (emit Event.orbitStart w)

/-- Loop condition of `return_to_earth`: `altitude > 0`. -/
def return_cond (w : World) : Bool :=
  decide (w.craft.altitude > 0)

/-- Loop body of `return_to_earth`. -/
def return_tick (w : World) : World :=
  let w := consume_fuel 1.5 w
  let w := { w with craft := { w.craft with altitude := w.craft.altitude - 10 } }
  let w := { w with craft := { w.craft with velocity := w.craft.velocity - 0.5 } }
  let w := if w.craft.velocity < 0 then
      { w with craft := { w.craft with velocity := 0 } } else w
  let w := validate_return_route w
  send_telemetry w

/-- The part of `return_to_earth` before its loop. -/
def return_entry (w : World) : World :=
  let w := emit Event.returnStart w
  { w with craft := { w.craft with state := SpacecraftState.RETURN } }

/-- The part of `return_to_earth` after its loop. -/
def return_exit (w : World) : World :=
  if w.craft.altitude ≤ 0 then
    let w := emit Event.returnLanded w
    { w with craft := { w.craft with state := SpacecraftState.LANDED } }
  else w

/-- Source `return_to_earth`, with an iteration budget for its loop. -/
def return_to_earth (n : Nat) (w : World) : Option World :=
  (while_loop return_cond return_tick n (return_entry w)).map return_exit

/-- The operator dialogue of `main`: the two tokens read by `scanf(" %c", ...)`. -/
def command_dialogue (n : Nat) (command confirm : Char) (w : World) : Option World :=
  let w := emit Event.commandPrompt w
  if command = 'r' ∨ command = 'R' then
    let w := emit Event.confirmPrompt w
    if confirm = 'y' ∨ confirm = 'Y' then
      return_to_earth n w
    else
      some (emit Event.confirmCancelled w)
  else
    some (emit Event.invalidCommand w)

/-- The final report of `main`. -/
def mission_report (w : World) : World :=
  if w.craft.state = SpacecraftState.LANDED then emit Event.missionComplete w
  else emit Event.missionFailed w

/-- Source `main`.  `t_fault` is the clock value read inside `orbit`, `t_check` the
one read for the dwell test, `command` and `confirm` the operator tokens, `n` the
iteration budget of the loops. -/
def main (n : Nat) (t_fault t_check : Int) (command confirm : Char) : Option World :=
  (launch n mission_start).bind fun w =>
    let r : Option World :=
      if w.craft.state = SpacecraftState.ORBIT then
        let w := orbit t_fault w
        if (!w.craft.systems_nominal) && decide (t_check - w.craft.fault_time ≥ 30 * 60) then
          some (emergency_protocol w)
        else
          command_dialogue n command confirm w
      else some w
    r.map mission_report

/-- Number of times the emergency procedure has been invoked so far: the
`[EMERGENCY]` lines written by `emergency_protocol`. -/
def emergencies (w : World) : Nat :=
  w.out.count Event.emergency

/-- Number of times `consume_fuel` has found the tank empty so far: the records it
passes to `log_error`. -/
def exhaustions (w : World) : Nat :=
  w.out.count (Event.error ErrorMsg.fuelExhausted)

/-! ## Auxiliary definitions for the statements and proofs -/

/-- Fuel drawn by the first `k` iterations of the forced descent when the tank does
not run dry: iteration `j` draws `2.1 - 0.11 * j`. -/
def descent_cost (k : ℕ) : ℚ :=
  21 / 10 * k - 11 / 200 * k * (k - 1)

/-- The statements of the loop body of `launch` that come before `safety_checks`. -/
def launch_advance (w : World) : World :=
  let w := consume_fuel 2.0 w
  let w := { w with craft := { w.craft with altitude := w.craft.altitude + 10 } }
  let w := { w with craft := { w.craft with velocity := w.craft.velocity + 1 } }
  send_telemetry w

/-- The statements of the loop body of `return_to_earth` that come before
`validate_return_route`. -/
def return_advance (w : World) : World :=
  let w := consume_fuel 1.5 w
  let w := { w with craft := { w.craft with altitude := w.craft.altitude - 10 } }
  let w := { w with craft := { w.craft with velocity := w.craft.velocity - 0.5 } }
  if w.craft.velocity < 0 then
    { w with craft := { w.craft with velocity := 0 } } else w

/-- Number of times `return_to_earth` has been entered so far: its `[RETURN]` start
line. -/
def returns (w : World) : Nat :=
  w.out.count Event.returnStart

/-- The loop of `return_to_earth` started at `v` stops after exactly `k` iterations,
at altitude 0. -/
def lands_in (k : ℕ) (v : World) : Prop :=
  return_cond (return_tick^[k] v) = false ∧
  (∀ j, j < k → return_cond (return_tick^[j] v) = true) ∧
  (return_tick^[k] v).craft.altitude = 0

/-- A craft in orbit with an empty tank and a systems fault. -/
def drained : World :=
  { craft :=
      { state := SpacecraftState.ORBIT
        fuel_level := 0
        altitude := 200
        velocity := 7
        systems_nominal := false
        latitude := 10
        longitude := 20
        fault_time := 0 }
    out := [] }

/-- A craft in orbit with fuel left and every system nominal. -/
def cruising : World :=
  { craft :=
      { state := SpacecraftState.ORBIT
        fuel_level := 56
        altitude := 100
        velocity := 10
        systems_nominal := true
        latitude := 10
        longitude := 20
        fault_time := 0 }
    out := [] }

/-- A craft in orbit with nominal systems and 2 units of fuel left. -/
def orbiting_low : World :=
  { craft :=
      { state := SpacecraftState.ORBIT
        fuel_level := 2
        altitude := 100
        velocity := 10
        systems_nominal := true
        latitude := 10
        longitude := 20
        fault_time := 0 }
    out := [] }

/-- A craft moving backwards at 100 with half a tank. -/
def reversing : World :=
  { craft :=
      { state := SpacecraftState.LAUNCH
        fuel_level := 50
        altitude := 0
        velocity := -100
        systems_nominal := true
        latitude := 10
        longitude := 20
        fault_time := 0 }
    out := [] }

/-- A craft on its way down at altitude 5 with an empty tank and no velocity. -/
def gliding : World :=
  { craft :=
      { state := SpacecraftState.RETURN
        fuel_level := 0
        altitude := 5
        velocity := 0
        systems_nominal := false
        latitude := 10
        longitude := 20
        fault_time := 0 }
    out := [] }

@[simp] theorem emit_craft (e : Event) (w : World) : (emit e w).craft = w.craft := rfl
@[simp] theorem emit_out (e : Event) (w : World) : (emit e w).out = w.out ++ [e] := rfl
@[simp] theorem log_error_craft (m : ErrorMsg) (w : World) : (log_error m w).craft = w.craft := rfl
@[simp] theorem log_error_out (m : ErrorMsg) (w : World) :
    (log_error m w).out = w.out ++ [Event.error m] := rfl
@[simp] theorem send_telemetry_craft (w : World) : (send_telemetry w).craft = w.craft := rfl
@[simp] theorem send_telemetry_out (w : World) :
    (send_telemetry w).out = w.out ++ [Event.telemetry] := rfl

theorem emergencies_append (w : World) (l : List Event) :
    emergencies { w with out := w.out ++ l } = emergencies w + l.count Event.emergency := by
  simp [emergencies]

/-! ### `consume_fuel` -/

theorem consume_fuel_fuel (b : ℚ) (w : World) :
    (consume_fuel b w).craft.fuel_level =
      if w.craft.fuel_level > dynamic_consumption b w.craft then
        w.craft.fuel_level - dynamic_consumption b w.craft
      else 0 := by
  unfold consume_fuel; split_ifs <;> rfl

theorem consume_fuel_systems (b : ℚ) (w : World) :
    (consume_fuel b w).craft.systems_nominal =
      (w.craft.systems_nominal &&
        decide (w.craft.fuel_level > dynamic_consumption b w.craft)) := by
  unfold consume_fuel; split_ifs with h <;> simp [h]

@[simp] theorem consume_fuel_altitude (b : ℚ) (w : World) :
    (consume_fuel b w).craft.altitude = w.craft.altitude := by
  unfold consume_fuel; split_ifs <;> rfl

@[simp] theorem consume_fuel_velocity (b : ℚ) (w : World) :
    (consume_fuel b w).craft.velocity = w.craft.velocity := by
  unfold consume_fuel; split_ifs <;> rfl

@[simp] theorem consume_fuel_state (b : ℚ) (w : World) :
    (consume_fuel b w).craft.state = w.craft.state := by
  unfold consume_fuel; split_ifs <;> rfl

@[simp] theorem consume_fuel_latitude (b : ℚ) (w : World) :
    (consume_fuel b w).craft.latitude = w.craft.latitude := by
  unfold consume_fuel; split_ifs <;> rfl

@[simp] theorem consume_fuel_longitude (b : ℚ) (w : World) :
    (consume_fuel b w).craft.longitude = w.craft.longitude := by
  unfold consume_fuel; split_ifs <;> rfl

@[simp] theorem consume_fuel_fault_time (b : ℚ) (w : World) :
    (consume_fuel b w).craft.fault_time = w.craft.fault_time := by
  unfold consume_fuel; split_ifs <;> rfl

theorem consume_fuel_out (b : ℚ) (w : World) :
    (consume_fuel b w).out =
      if w.craft.fuel_level > dynamic_consumption b w.craft then w.out
      else w.out ++ [Event.error ErrorMsg.fuelExhausted] := by
  unfold consume_fuel; split_ifs <;> rfl

@[simp] theorem consume_fuel_emergencies (b : ℚ) (w : World) :
    emergencies (consume_fuel b w) = emergencies w := by
  unfold emergencies
  rw [consume_fuel_out]; split_ifs <;> simp

theorem consume_fuel_exhaustions (b : ℚ) (w : World) :
    exhaustions (consume_fuel b w) =
      if w.craft.fuel_level > dynamic_consumption b w.craft then exhaustions w
      else exhaustions w + 1 := by
  unfold exhaustions
  rw [consume_fuel_out]; split_ifs <;> simp

/-! ### the forced descent -/

theorem descent_tick_altitude (w : World) :
    (descent_tick w).craft.altitude = w.craft.altitude - 10 := by
  unfold descent_tick
  dsimp only
  split_ifs <;> simp

theorem descent_tick_velocity (w : World) :
    (descent_tick w).craft.velocity =
      if w.craft.velocity - 0.1 < 0 then 0 else w.craft.velocity - 0.1 := by
  unfold descent_tick
  dsimp only
  split_ifs <;> simp_all

theorem descent_tick_fuel (w : World) :
    (descent_tick w).craft.fuel_level =
      if w.craft.fuel_level > dynamic_consumption 1.0 w.craft then
        w.craft.fuel_level - dynamic_consumption 1.0 w.craft
      else 0 := by
  unfold descent_tick
  dsimp only
  rw [← consume_fuel_fuel]
  split_ifs <;> simp

theorem descent_tick_systems (w : World) :
    (descent_tick w).craft.systems_nominal =
      (w.craft.systems_nominal &&
        decide (w.craft.fuel_level > dynamic_consumption 1.0 w.craft)) := by
  unfold descent_tick
  dsimp only
  rw [← consume_fuel_systems]
  split_ifs <;> simp

theorem descent_tick_frame (w : World) :
    (descent_tick w).craft.state = w.craft.state ∧
    (descent_tick w).craft.latitude = w.craft.latitude ∧
    (descent_tick w).craft.longitude = w.craft.longitude ∧
    (descent_tick w).craft.fault_time = w.craft.fault_time := by
  unfold descent_tick
  dsimp only
  split_ifs <;> simp

theorem descent_tick_emergencies (w : World) :
    emergencies (descent_tick w) = emergencies w := by
  have h : (descent_tick w).out = (consume_fuel 1.0 w).out ++ [Event.telemetry] := by
    unfold descent_tick
    dsimp only
    split_ifs <;> simp
  have h2 := consume_fuel_emergencies 1.0 w
  unfold emergencies at *
  rw [h]; simpa using h2

theorem descent_tick_exhaustions (w : World) :
    exhaustions (descent_tick w) =
      if w.craft.fuel_level > dynamic_consumption 1.0 w.craft then exhaustions w
      else exhaustions w + 1 := by
  have h : (descent_tick w).out = (consume_fuel 1.0 w).out ++ [Event.telemetry] := by
    unfold descent_tick
    dsimp only
    split_ifs <;> simp
  have h2 := consume_fuel_exhaustions 1.0 w
  unfold exhaustions at *
  rw [← h2, h]; simp

theorem descent_loop_eq (w : World) :
    descent_loop w = if w.craft.altitude > 0 then descent_loop (descent_tick w) else w := by
  rw [descent_loop]

theorem descent_loop_iterate (k : ℕ) : ∀ w : World, w.craft.altitude = 10 * k →
    descent_loop w = descent_tick^[k] w := by
  induction k with
  | zero =>
    intro w h
    rw [descent_loop_eq]
    simp [h]
  | succ k ih =>
    intro w h
    rw [descent_loop_eq]
    have hpos : w.craft.altitude > 0 := by rw [h]; push_cast; positivity
    rw [if_pos hpos, Function.iterate_succ_apply]
    apply ih
    rw [descent_tick_altitude, h]; push_cast; ring

theorem descent_cost_succ (k : ℕ) :
    descent_cost (k + 1) = descent_cost k + (21 / 10 - 11 / 100 * k) := by
  unfold descent_cost; push_cast; ring

theorem descent_cost_ten : descent_cost 10 = 16.05 := by
  unfold descent_cost; norm_num

/-- State of the forced descent after `k ≤ 10` iterations from a loop entry with
altitude 100, velocity 1 and fuel `f > 0`. -/
theorem descent_iterate_spec (e : World) (ha : e.craft.altitude = 100)
    (hv : e.craft.velocity = 1) (hf : 0 < e.craft.fuel_level) (k : ℕ) (hk : k ≤ 10) :
    (descent_tick^[k] e).craft.altitude = 100 - 10 * k ∧
    (descent_tick^[k] e).craft.velocity = 1 - k / 10 ∧
    (descent_tick^[k] e).craft.fuel_level =
      (if descent_cost k < e.craft.fuel_level then e.craft.fuel_level - descent_cost k else 0) ∧
    (descent_tick^[k] e).craft.systems_nominal =
      (e.craft.systems_nominal && decide (descent_cost k < e.craft.fuel_level)) ∧
    (descent_tick^[k] e).craft.state = e.craft.state ∧
    (descent_tick^[k] e).craft.latitude = e.craft.latitude ∧
    (descent_tick^[k] e).craft.longitude = e.craft.longitude ∧
    (descent_tick^[k] e).craft.fault_time = e.craft.fault_time ∧
    emergencies (descent_tick^[k] e) = emergencies e ∧
    (descent_cost k < e.craft.fuel_level →
      exhaustions (descent_tick^[k] e) = exhaustions e) ∧
    (e.craft.fuel_level ≤ descent_cost k →
      exhaustions e < exhaustions (descent_tick^[k] e)) := by
  induction k with
  | zero =>
    simp [descent_cost, ha, hv, hf]
  | succ k ih =>
    obtain ⟨i1, i2, i3, i4, i5, i6, i7, i8, i9, i10, i11⟩ := ih (by omega)
    have hk' : (k : ℚ) ≤ 9 := by
      have : k ≤ 9 := by omega
      exact_mod_cast this
    have hk0 : (0 : ℚ) ≤ k := Nat.cast_nonneg k
    have hc : dynamic_consumption 1.0 (descent_tick^[k] e).craft = 21 / 10 - 11 / 100 * k := by
      unfold dynamic_consumption
      rw [i1, i2]; norm_num; ring
    have hcpos : (0 : ℚ) < 21 / 10 - 11 / 100 * k := by linarith
    have hfr := descent_tick_frame (descent_tick^[k] e)
    rw [Function.iterate_succ_apply', descent_tick_altitude, descent_tick_velocity,
      descent_tick_fuel, descent_tick_systems, descent_tick_emergencies,
      descent_tick_exhaustions, hc, hfr.1, hfr.2.1, hfr.2.2.1, hfr.2.2.2,
      descent_cost_succ, i1, i2, i3, i4]
    refine ⟨by push_cast; ring, ?_, ?_, ?_, i5, i6, i7, i8, i9, ?_, ?_⟩
    · have : ¬ ((1 : ℚ) - k / 10 - 0.1 < 0) := by norm_num; linarith
      rw [if_neg this]; push_cast; norm_num; ring
    · by_cases h : descent_cost k < e.craft.fuel_level
      · rw [if_pos h]
        by_cases h2 : descent_cost k + (21 / 10 - 11 / 100 * k) < e.craft.fuel_level
        · rw [if_pos h2, if_pos (by linarith)]; ring
        · rw [if_neg h2, if_neg (by linarith)]
      · rw [if_neg h, if_neg (by linarith), if_neg (by linarith)]
    · by_cases h : descent_cost k < e.craft.fuel_level
      · rw [if_pos h]
        by_cases h2 : descent_cost k + (21 / 10 - 11 / 100 * k) < e.craft.fuel_level
        · have h3 : e.craft.fuel_level - descent_cost k > 21 / 10 - 11 / 100 * k := by linarith
          simp [h, h2, h3]
        · have h3 : ¬ e.craft.fuel_level - descent_cost k > 21 / 10 - 11 / 100 * k := by
            linarith
          simp [h, h2, h3]
      · have h2 : ¬ descent_cost k + (21 / 10 - 11 / 100 * k) < e.craft.fuel_level := by
          linarith
        simp [h, h2]
    · intro h2
      have h : descent_cost k < e.craft.fuel_level := by linarith
      rw [if_pos h, if_pos (by linarith)]
      exact i10 h
    · intro h2
      by_cases h : descent_cost k < e.craft.fuel_level
      · rw [if_pos h, if_neg (by linarith), i10 h]; omega
      · have := i11 (by linarith)
        split_ifs <;> omega

/-! ### `calculate_safe_return` -/

theorem descent_entry_craft (w : World) :
    (descent_entry w).craft = { w.craft with velocity := 1, altitude := 100 } := by
  unfold descent_entry; norm_num

theorem descent_entry_out (w : World) :
    (descent_entry w).out = w.out ++ [Event.safetyStart] := rfl

theorem descent_from_entry (w : World) :
    descent_loop (descent_entry w) = descent_tick^[10] (descent_entry w) := by
  apply descent_loop_iterate
  rw [descent_entry_craft]; norm_num

theorem calculate_safe_return_descent (w : World) (hf : 0 < w.craft.fuel_level) :
    (calculate_safe_return w).craft =
      { w.craft with
        state := SpacecraftState.LANDED
        altitude := 0
        velocity := 0
        fuel_level := if 16.05 < w.craft.fuel_level then w.craft.fuel_level - 16.05 else 0
        systems_nominal := w.craft.systems_nominal && decide (16.05 < w.craft.fuel_level) } ∧
    emergencies (calculate_safe_return w) = emergencies w ∧
    (16.05 < w.craft.fuel_level →
      exhaustions (calculate_safe_return w) = exhaustions w) ∧
    (w.craft.fuel_level ≤ 16.05 →
      exhaustions w < exhaustions (calculate_safe_return w)) := by
  have he := descent_entry_craft w
  obtain ⟨i1, i2, i3, i4, i5, i6, i7, i8, i9, i10, i11⟩ :=
    descent_iterate_spec (descent_entry w) (by rw [he]) (by rw [he]) (by rw [he]; exact hf)
      10 (le_refl 10)
  rw [descent_cost_ten, he] at i3 i4 i10 i11
  rw [he] at i5 i6 i7 i8
  have hem : emergencies (descent_entry w) = emergencies w := by
    simp [emergencies, descent_entry_out]
  have hex : exhaustions (descent_entry w) = exhaustions w := by
    simp [exhaustions, descent_entry_out]
  have hcsr : calculate_safe_return w =
      emit Event.safetyLanded
        { descent_tick^[10] (descent_entry w) with
          craft := { (descent_tick^[10] (descent_entry w)).craft with
            state := SpacecraftState.LANDED } } := by
    unfold calculate_safe_return
    rw [if_neg (not_le.mpr hf), descent_from_entry]
  generalize descent_tick^[10] (descent_entry w) = d at *
  dsimp only at i3 i4 i5 i6 i7 i8 i10 i11
  norm_num at i1 i2
  rw [hem] at i9
  rw [hex] at i10 i11
  rw [hcsr]
  refine ⟨?_, ?_, ?_, ?_⟩
  · ext
    · rfl
    · simpa using i3
    · simpa using i1
    · simpa using i2
    · simpa using i4
    · simpa using i6
    · simpa using i7
    · simpa using i8
  · simpa [emergencies] using i9
  · intro h
    simpa [exhaustions] using i10 h
  · intro h
    simpa [exhaustions] using i11 h

theorem calculate_safe_return_no_fuel (w : World) (hf : w.craft.fuel_level ≤ 0) :
    (calculate_safe_return w).craft =
      { w.craft with velocity := 0, altitude := max (w.craft.altitude - 50) 0 } ∧
    (calculate_safe_return w).out =
      w.out ++ [Event.critical, Event.telemetry, Event.error ErrorMsg.orbitProtection] := by
  unfold calculate_safe_return
  rw [if_pos hf]
  norm_num

theorem calculate_safe_return_emergencies (w : World) :
    emergencies (calculate_safe_return w) = emergencies w := by
  by_cases hf : w.craft.fuel_level ≤ 0
  · simp [emergencies, (calculate_safe_return_no_fuel w hf).2]
  · exact (calculate_safe_return_descent w (not_le.mp hf)).2.1

theorem emergency_protocol_emergencies (w : World) :
    emergencies (emergency_protocol w) = emergencies w + 1 := by
  unfold emergency_protocol
  rw [calculate_safe_return_emergencies]
  simp [emergencies]

theorem calculate_safe_return_craft_congr (w v : World) (h : w.craft = v.craft) :
    (calculate_safe_return w).craft = (calculate_safe_return v).craft := by
  by_cases hf : w.craft.fuel_level ≤ 0
  · rw [(calculate_safe_return_no_fuel w hf).1,
      (calculate_safe_return_no_fuel v (by rw [← h]; exact hf)).1, h]
  · rw [(calculate_safe_return_descent w (not_le.mp hf)).1,
      (calculate_safe_return_descent v (by rw [← h]; exact not_le.mp hf)).1, h]

theorem emergency_protocol_craft (w : World) :
    (emergency_protocol w).craft = (calculate_safe_return w).craft := by
  unfold emergency_protocol
  exact calculate_safe_return_craft_congr _ _ rfl

/-- The three tests of `safety_checks`, one after the other. -/
theorem safety_checks_eq (w : World) :
    safety_checks w =
      let w1 := if w.craft.fuel_level ≤ 10 then
        emergency_protocol (log_error ErrorMsg.fuelCritical w) else w
      let w2 := if w1.craft.altitude > 300 then
        emergency_protocol (log_error ErrorMsg.altitudeAboveLimit w1) else w1
      if w2.craft.systems_nominal = false then
        emergency_protocol (log_error ErrorMsg.systemsNotNominal w2)
      else w2 := by
  unfold safety_checks
  norm_num

theorem emergency_protocol_log_emergencies (m : ErrorMsg) (w : World) :
    emergencies (emergency_protocol (log_error m w)) = emergencies w + 1 := by
  rw [emergency_protocol_emergencies]
  simp [emergencies]

theorem emergency_protocol_log_craft (m : ErrorMsg) (w : World) :
    (emergency_protocol (log_error m w)).craft = (calculate_safe_return w).craft := by
  rw [emergency_protocol_craft]
  exact calculate_safe_return_craft_congr _ _ rfl

/-- With an empty tank, a systems fault and `altitude <= 350` the tests for fuel and
for systems fire and the test for altitude does not. -/
theorem safety_checks_fuel_and_systems (w : World) (hf : w.craft.fuel_level ≤ 0)
    (hs : w.craft.systems_nominal = false) (ha : w.craft.altitude ≤ 350) :
    safety_checks w =
      emergency_protocol (log_error ErrorMsg.systemsNotNominal
        (emergency_protocol (log_error ErrorMsg.fuelCritical w))) := by
  have h1 := (calculate_safe_return_no_fuel w hf).1
  have e1 := emergency_protocol_log_craft ErrorMsg.fuelCritical w
  rw [h1] at e1
  have hmax : ¬ max (w.craft.altitude - 50) 0 > 300 := by
    rw [not_lt]; exact max_le (by linarith) (by norm_num)
  have h10 : w.craft.fuel_level ≤ 10 := by linarith
  rw [safety_checks_eq]
  simp only [h10, if_true, e1, hmax, if_false, hs]

/-! ### budgeted `while` loops -/

/-- A loop whose condition holds before each of the first `k` iterations and fails
after the `k`-th returns the `k`-th iterate for every budget of at least `k`. -/
theorem while_loop_iterate (cond : World → Bool) (body : World → World) (k : ℕ) :
    ∀ (n : ℕ) (w : World), (∀ j, j < k → cond (body^[j] w) = true) →
      cond (body^[k] w) = false → k ≤ n →
      while_loop cond body n w = some (body^[k] w) := by
  induction k with
  | zero =>
    intro n w _ hk _
    simp only [Function.iterate_zero, id_eq] at hk
    cases n <;> simp [while_loop, hk]
  | succ k ih =>
    intro n w hj hk hn
    obtain ⟨m, rfl⟩ : ∃ m, n = m + 1 := ⟨n - 1, by omega⟩
    have h0 : cond w = true := hj 0 (by omega)
    rw [while_loop, if_pos h0, Function.iterate_succ_apply]
    apply ih
    · intro j hjk
      have := hj (j + 1) (by omega)
      rwa [Function.iterate_succ_apply] at this
    · rwa [Function.iterate_succ_apply] at hk
    · omega

/-- A loop that returns has reached an iterate at which the condition fails, the
condition holding before every earlier iteration. -/
theorem while_loop_some (cond : World → Bool) (body : World → World) :
    ∀ (n : ℕ) (w r : World), while_loop cond body n w = some r →
      ∃ k, k ≤ n ∧ r = body^[k] w ∧ cond r = false ∧
        ∀ j, j < k → cond (body^[j] w) = true := by
  intro n
  induction n with
  | zero =>
    intro w r h
    by_cases hc : cond w = true
    · simp [while_loop, hc] at h
    · simp only [while_loop, if_neg hc, Option.some.injEq] at h
      subst h
      exact ⟨0, le_refl 0, rfl, by simpa using hc, fun j hj => absurd hj (by omega)⟩
  | succ n ih =>
    intro w r h
    by_cases hc : cond w = true
    · rw [while_loop, if_pos hc] at h
      obtain ⟨k, hk, hr, hcr, hj⟩ := ih _ _ h
      refine ⟨k + 1, by omega, by rw [Function.iterate_succ_apply]; exact hr, hcr, ?_⟩
      intro j hjk
      cases j with
      | zero => exact hc
      | succ j =>
        rw [Function.iterate_succ_apply]
        exact hj j (by omega)
    · simp only [while_loop, if_neg hc, Option.some.injEq] at h
      subst h
      exact ⟨0, by omega, rfl, by simpa using hc, fun j hj => absurd hj (by omega)⟩

/-- A loop whose condition fails at some iterate returns for every large enough
budget. -/
theorem while_loop_terminates (cond : World → Bool) (body : World → World) (w : World)
    (h : ∃ k, cond (body^[k] w) = false) :
    ∃ k, cond (body^[k] w) = false ∧ (∀ j, j < k → cond (body^[j] w) = true) ∧
      ∀ n, k ≤ n → while_loop cond body n w = some (body^[k] w) := by
  classical
  refine ⟨Nat.find h, Nat.find_spec h, ?_, ?_⟩
  · intro j hj
    have := Nat.find_min h hj
    simpa using this
  · intro n hn
    apply while_loop_iterate _ _ _ _ _ _ (Nat.find_spec h) hn
    intro j hj
    have := Nat.find_min h hj
    simpa using this

/-! ### one escalation -/

theorem escalation_no_fuel (m : ErrorMsg) (w : World) (hf : w.craft.fuel_level ≤ 0) :
    (emergency_protocol (log_error m w)).craft =
      { w.craft with velocity := 0, altitude := max (w.craft.altitude - 50) 0 } := by
  rw [emergency_protocol_log_craft, (calculate_safe_return_no_fuel w hf).1]

theorem escalation_descent (m : ErrorMsg) (w : World) (hf : 0 < w.craft.fuel_level)
    (hm : m ≠ ErrorMsg.fuelExhausted) :
    (emergency_protocol (log_error m w)).craft =
      { w.craft with
        state := SpacecraftState.LANDED
        altitude := 0
        velocity := 0
        fuel_level := if 16.05 < w.craft.fuel_level then w.craft.fuel_level - 16.05 else 0
        systems_nominal := w.craft.systems_nominal && decide (16.05 < w.craft.fuel_level) } ∧
    (16.05 < w.craft.fuel_level →
      exhaustions (emergency_protocol (log_error m w)) = exhaustions w) := by
  constructor
  · rw [emergency_protocol_log_craft, (calculate_safe_return_descent w hf).1]
  · intro h
    unfold emergency_protocol
    rw [(calculate_safe_return_descent _ (by simpa using hf)).2.2.1 (by simpa using h)]
    simp [exhaustions, List.count_cons, hm]

/-- Outcome of `safety_checks` on a craft below the altitude limit: nothing happens,
or the tank ends empty, or a forced descent has landed a craft whose systems are
faulty on at least 16 units less fuel, without running the tank dry. -/
theorem safety_checks_cases (m : World) (ha : m.craft.altitude ≤ 300) :
    (10 < m.craft.fuel_level ∧ m.craft.systems_nominal = true ∧ safety_checks m = m) ∨
    (safety_checks m).craft.fuel_level ≤ 0 ∨
    (m.craft.systems_nominal = false ∧
      (safety_checks m).craft.systems_nominal = false ∧
      (safety_checks m).craft.altitude = 0 ∧
      (safety_checks m).craft.velocity = 0 ∧
      (safety_checks m).craft.fuel_level ≤ m.craft.fuel_level - 16 ∧
      exhaustions (safety_checks m) = exhaustions m) := by
  rw [safety_checks_eq]
  by_cases h1 : m.craft.fuel_level ≤ 10
  · right; left
    by_cases h0 : m.craft.fuel_level ≤ 0
    · have e1 := escalation_no_fuel ErrorMsg.fuelCritical m h0
      have hmax : ¬ max (m.craft.altitude - 50) 0 > 300 := by
        rw [not_lt]; exact max_le (by linarith) (by norm_num)
      simp only [h1, if_true, e1, hmax, if_false]
      generalize emergency_protocol (log_error ErrorMsg.fuelCritical m) = w1 at *
      have hf1 : w1.craft.fuel_level ≤ 0 := by rw [e1]; exact h0
      split_ifs
      · rw [escalation_no_fuel _ _ hf1]; exact hf1
      · exact hf1
    · have e1 := (escalation_descent ErrorMsg.fuelCritical m (not_le.mp h0) (by decide)).1
      have h16 : ¬ 16.05 < m.craft.fuel_level := by
        rw [not_lt]; norm_num; linarith
      simp only [h16, if_false, decide_False, Bool.and_false] at e1
      simp only [h1, if_true, e1, gt_iff_lt, show ¬ (300 : ℚ) < 0 by norm_num, if_false]
      generalize emergency_protocol (log_error ErrorMsg.fuelCritical m) = w1 at *
      have hf1 : w1.craft.fuel_level ≤ 0 := by rw [e1]
      rw [escalation_no_fuel _ _ hf1]; exact hf1
  · simp only [h1, if_false, gt_iff_lt, not_lt.mpr ha]
    by_cases h3 : m.craft.systems_nominal = true
    · left
      refine ⟨not_le.mp h1, h3, ?_⟩
      simp [h3]
    · right
      have h3f : m.craft.systems_nominal = false := by simpa using h3
      simp only [h3f, if_true]
      have hpos : 0 < m.craft.fuel_level := by linarith
      obtain ⟨e1, e2⟩ := escalation_descent ErrorMsg.systemsNotNominal m hpos (by decide)
      by_cases h16 : 16.05 < m.craft.fuel_level
      · right
        simp only [h16, if_true] at e1
        refine ⟨trivial, ?_, ?_, ?_, ?_, e2 h16⟩
        · rw [e1]; simp [h3f]
        · rw [e1]
        · rw [e1]
        · rw [e1]; norm_num; linarith
      · left
        simp only [h16, if_false] at e1
        rw [e1]

/-! ### `launch` -/

theorem launch_tick_eq (w : World) : launch_tick w = safety_checks (launch_advance w) := rfl

theorem launch_advance_altitude (w : World) :
    (launch_advance w).craft.altitude = w.craft.altitude + 10 := by
  simp [launch_advance]

theorem launch_advance_velocity (w : World) :
    (launch_advance w).craft.velocity = w.craft.velocity + 1 := by
  simp [launch_advance]

theorem launch_advance_fuel (w : World) :
    (launch_advance w).craft.fuel_level =
      if w.craft.fuel_level > dynamic_consumption 2.0 w.craft then
        w.craft.fuel_level - dynamic_consumption 2.0 w.craft
      else 0 := by
  simp [launch_advance, consume_fuel_fuel]

theorem launch_advance_systems (w : World) :
    (launch_advance w).craft.systems_nominal =
      (w.craft.systems_nominal &&
        decide (w.craft.fuel_level > dynamic_consumption 2.0 w.craft)) := by
  simp [launch_advance, consume_fuel_systems]

theorem launch_advance_exhaustions (w : World) :
    exhaustions (launch_advance w) =
      if w.craft.fuel_level > dynamic_consumption 2.0 w.craft then exhaustions w
      else exhaustions w + 1 := by
  have h : (launch_advance w).out = (consume_fuel 2.0 w).out ++ [Event.telemetry] := rfl
  have h2 := consume_fuel_exhaustions 2.0 w
  unfold exhaustions at *
  rw [← h2, h]; simp

theorem launch_cond_iff (w : World) :
    launch_cond w = true ↔ w.craft.altitude < 100 ∧ 0 < w.craft.fuel_level := by
  simp [launch_cond]

theorem launch_cond_false_iff (w : World) :
    launch_cond w = false ↔ 100 ≤ w.craft.altitude ∨ w.craft.fuel_level ≤ 0 := by
  rw [← Bool.not_eq_true, launch_cond_iff, not_and_or, not_lt, not_lt]

/-- Outcome of one iteration of the loop of `launch`: a nominal step that climbs 10,
or a tank that ends empty, or a forced descent of a craft whose systems were already
faulty. -/
theorem launch_tick_cases (v : World) (hc : launch_cond v = true) :
    (v.craft.systems_nominal = true ∧ (launch_tick v).craft.systems_nominal = true ∧
      (launch_tick v).craft.altitude = v.craft.altitude + 10 ∧
      exhaustions (launch_tick v) = exhaustions v) ∨
    (launch_tick v).craft.fuel_level ≤ 0 ∨
    (v.craft.systems_nominal = false ∧
      (launch_tick v).craft.systems_nominal = false ∧
      (launch_tick v).craft.altitude = 0 ∧
      (launch_tick v).craft.velocity = 0 ∧
      (launch_tick v).craft.fuel_level ≤
        v.craft.fuel_level - dynamic_consumption 2.0 v.craft - 16 ∧
      exhaustions (launch_tick v) = exhaustions v) := by
  obtain ⟨ha, _⟩ := (launch_cond_iff v).mp hc
  have hm : (launch_advance v).craft.altitude ≤ 300 := by
    rw [launch_advance_altitude]; linarith
  rw [launch_tick_eq]
  have hfuel := launch_advance_fuel v
  have hsys := launch_advance_systems v
  have hex := launch_advance_exhaustions v
  rcases safety_checks_cases (launch_advance v) hm with ⟨h1, h2, h3⟩ | h | ⟨h1, h2, h3, h4, h5, h6⟩
  · left
    by_cases hd : v.craft.fuel_level > dynamic_consumption 2.0 v.craft
    · rw [if_pos hd] at hex
      simp only [hd, decide_True, Bool.and_true] at hsys
      rw [h3]
      exact ⟨by rw [← hsys]; exact h2, h2, launch_advance_altitude v, hex⟩
    · rw [if_neg hd] at hfuel
      rw [hfuel] at h1
      norm_num at h1
  · right; left; exact h
  · by_cases hd : v.craft.fuel_level > dynamic_consumption 2.0 v.craft
    · right; right
      rw [if_pos hd] at hex hfuel
      simp only [hd, decide_True, Bool.and_true] at hsys
      rw [hfuel] at h5
      exact ⟨by rw [← hsys]; exact h1, h2, h3, h4, h5, by rw [h6, hex]⟩
    · right; left
      rw [if_neg hd] at hfuel
      rw [hfuel] at h5
      linarith

/-- From a craft whose systems are faulty the loop of `launch` stops: every further
iteration costs at least 16 units of fuel. -/
theorem launch_terminates_faulty (m : ℕ) : ∀ v : World,
    v.craft.systems_nominal = false →
    max v.craft.fuel_level (v.craft.fuel_level - dynamic_consumption 2.0 v.craft) ≤ m →
    ∃ k, launch_cond (launch_tick^[k] v) = false := by
  induction m with
  | zero =>
    intro v _ hm
    refine ⟨0, ?_⟩
    rw [Function.iterate_zero, id_eq, launch_cond_false_iff]
    right
    have := le_trans (le_max_left _ _) hm
    simpa using this
  | succ m ih =>
    intro v hs hm
    by_cases hc : launch_cond v = true
    · rcases launch_tick_cases v hc with ⟨h1, _⟩ | h | ⟨_, h2, h3, h4, h5, _⟩
      · rw [hs] at h1; cases h1
      · refine ⟨1, ?_⟩
        rw [Function.iterate_one, launch_cond_false_iff]
        right; exact h
      · have hdc : dynamic_consumption 2.0 (launch_tick v).craft = 2 := by
          unfold dynamic_consumption; rw [h3, h4]; norm_num
        have hle : v.craft.fuel_level - dynamic_consumption 2.0 v.craft ≤ (m : ℚ) + 1 := by
          have := le_trans (le_max_right _ _) hm
          push_cast at this
          exact this
        obtain ⟨k, hk⟩ := ih (launch_tick v) h2 (by
          rw [hdc]
          apply max_le <;> linarith)
        exact ⟨k + 1, by rw [Function.iterate_succ_apply]; exact hk⟩
    · exact ⟨0, by simpa using hc⟩

/-- From a craft whose systems are nominal the loop of `launch` stops: a nominal
iteration climbs 10. -/
theorem launch_terminates_nominal (m : ℕ) : ∀ v : World,
    v.craft.systems_nominal = true → 100 - v.craft.altitude ≤ 10 * m →
    ∃ k, launch_cond (launch_tick^[k] v) = false := by
  induction m with
  | zero =>
    intro v _ hm
    refine ⟨0, ?_⟩
    rw [Function.iterate_zero, id_eq, launch_cond_false_iff]
    left
    norm_num at hm
    linarith
  | succ m ih =>
    intro v hs hm
    by_cases hc : launch_cond v = true
    · rcases launch_tick_cases v hc with ⟨_, h2, h3, _⟩ | h | ⟨h1, _⟩
      · obtain ⟨k, hk⟩ := ih (launch_tick v) h2 (by
          rw [h3]; push_cast at hm; linarith)
        exact ⟨k + 1, by rw [Function.iterate_succ_apply]; exact hk⟩
      · refine ⟨1, ?_⟩
        rw [Function.iterate_one, launch_cond_false_iff]
        right; exact h
      · rw [hs] at h1; cases h1
    · exact ⟨0, by simpa using hc⟩

/-- The loop of `launch` stops from every state. -/
theorem launch_terminates (v : World) : ∃ k, launch_cond (launch_tick^[k] v) = false := by
  by_cases hs : v.craft.systems_nominal = true
  · obtain ⟨m, hm⟩ := exists_nat_ge ((100 - v.craft.altitude) / 10)
    exact launch_terminates_nominal m v hs (by linarith)
  · obtain ⟨m, hm⟩ := exists_nat_ge
      (max v.craft.fuel_level (v.craft.fuel_level - dynamic_consumption 2.0 v.craft))
    exact launch_terminates_faulty m v (by simpa using hs) hm

theorem launch_exit_craft (r : World) :
    (launch_exit r).craft =
      { r.craft with state :=
          if 0 < r.craft.fuel_level then SpacecraftState.ORBIT else SpacecraftState.IDLE } := by
  unfold launch_exit
  split_ifs <;> rfl

theorem launch_exit_exhaustions (r : World) :
    exhaustions (launch_exit r) = exhaustions r := by
  unfold launch_exit exhaustions
  split_ifs <;> simp

theorem launch_advance_emergencies (w : World) :
    emergencies (launch_advance w) = emergencies w := by
  have h : (launch_advance w).out = (consume_fuel 2.0 w).out ++ [Event.telemetry] := rfl
  have h2 := consume_fuel_emergencies 2.0 w
  unfold emergencies at *
  rw [← h2, h]; simp

theorem launch_advance_state (w : World) :
    (launch_advance w).craft.state = w.craft.state := by
  simp [launch_advance]

/-- No test of `safety_checks` fires on a craft with more than 10 units of fuel, at
most 300 of altitude and nominal systems. -/
theorem safety_checks_nominal (w : World) (h1 : 10 < w.craft.fuel_level)
    (h2 : w.craft.altitude ≤ 300) (h3 : w.craft.systems_nominal = true) :
    safety_checks w = w := by
  rw [safety_checks_eq]
  simp [not_le.mpr h1, not_lt.mpr h2, h3]

/-- A launch iteration that leaves more than 10 units of fuel in a craft with nominal
systems below the altitude limit is the plain physics step. -/
theorem launch_tick_nominal (v : World) (hs : v.craft.systems_nominal = true)
    (hf : dynamic_consumption 2.0 v.craft + 10 < v.craft.fuel_level)
    (ha : v.craft.altitude + 10 ≤ 300) :
    launch_tick v = launch_advance v := by
  have hgt : v.craft.fuel_level > dynamic_consumption 2.0 v.craft := by linarith
  rw [launch_tick_eq]
  apply safety_checks_nominal
  · rw [launch_advance_fuel, if_pos hgt]; linarith
  · rw [launch_advance_altitude]; exact ha
  · rw [launch_advance_systems, hs]; simp [hgt]

/-- The launch from the initialized craft, iteration by iteration: after `k <= 10`
iterations altitude is `10 k`, velocity `k`, fuel `100 - 2 k - k (k - 1) / 10`, with
systems nominal and no emergency and no empty tank so far. -/
theorem launch_from_start_iterate (k : ℕ) (hk : k ≤ 10) :
    (launch_tick^[k] (launch_entry mission_start)).craft.altitude = 10 * k ∧
    (launch_tick^[k] (launch_entry mission_start)).craft.velocity = k ∧
    (launch_tick^[k] (launch_entry mission_start)).craft.fuel_level =
      100 - 2 * k - k * (k - 1) / 10 ∧
    (launch_tick^[k] (launch_entry mission_start)).craft.systems_nominal = true ∧
    (launch_tick^[k] (launch_entry mission_start)).craft.state = SpacecraftState.LAUNCH ∧
    emergencies (launch_tick^[k] (launch_entry mission_start)) = 0 ∧
    exhaustions (launch_tick^[k] (launch_entry mission_start)) = 0 := by
  induction k with
  | zero =>
    norm_num [launch_entry, mission_start, initialize_spacecraft, emergencies, exhaustions,
      List.count_cons]
    decide
  | succ k ih =>
    obtain ⟨i1, i2, i3, i4, i5, i6, i7⟩ := ih (by omega)
    have hk9 : (k : ℚ) ≤ 9 := by
      have : k ≤ 9 := by omega
      exact_mod_cast this
    have hk0 : (0 : ℚ) ≤ k := Nat.cast_nonneg k
    have hdc : dynamic_consumption 2.0 (launch_tick^[k] (launch_entry mission_start)).craft =
        2 + k / 5 := by
      unfold dynamic_consumption
      rw [i1, i2]; norm_num; ring
    have hfuel : dynamic_consumption 2.0 (launch_tick^[k] (launch_entry mission_start)).craft
        + 10 < (launch_tick^[k] (launch_entry mission_start)).craft.fuel_level := by
      rw [hdc, i3]; nlinarith
    rw [Function.iterate_succ_apply',
      launch_tick_nominal _ i4 hfuel (by rw [i1]; linarith),
      launch_advance_altitude, launch_advance_velocity, launch_advance_fuel,
      launch_advance_systems, launch_advance_state, launch_advance_emergencies,
      launch_advance_exhaustions, if_pos (by linarith), if_pos (by linarith),
      i1, i2, i3, i4, i5, i6, i7, hdc]
    refine ⟨by push_cast; ring, by push_cast; ring, by push_cast; ring, ?_, rfl, rfl, rfl⟩
    have : 2 + (k : ℚ) / 5 < 100 - 2 * k - k * (k - 1) / 10 := by nlinarith
    simp [this]

/-- The loop of `launch` from the initialized craft runs exactly 10 iterations. -/
theorem launch_from_start_loop :
    (∀ j, j < 10 → launch_cond (launch_tick^[j] (launch_entry mission_start)) = true) ∧
    launch_cond (launch_tick^[10] (launch_entry mission_start)) = false := by
  constructor
  · intro j hj
    obtain ⟨i1, _, i3, _⟩ := launch_from_start_iterate j (by omega)
    have hj9 : (j : ℚ) ≤ 9 := by
      have : j ≤ 9 := by omega
      exact_mod_cast this
    have hj0 : (0 : ℚ) ≤ j := Nat.cast_nonneg j
    rw [launch_cond_iff, i1, i3]
    constructor
    · linarith
    · nlinarith
  · obtain ⟨i1, _⟩ := launch_from_start_iterate 10 (le_refl 10)
    rw [launch_cond_false_iff, i1]
    left; norm_num

/-- Result of `launch` on the initialized craft. -/
theorem launch_from_start_result (n : ℕ) (hn : 10 ≤ n) :
    ∃ r, launch n mission_start = some r ∧
      r.craft.state = SpacecraftState.ORBIT ∧ r.craft.altitude = 100 ∧
      r.craft.velocity = 10 ∧ r.craft.fuel_level = 71 ∧ r.craft.systems_nominal = true ∧
      emergencies r = 0 ∧ exhaustions r = 0 := by
  obtain ⟨i1, i2, i3, i4, _, i6, i7⟩ := launch_from_start_iterate 10 (le_refl 10)
  have hloop := while_loop_iterate launch_cond launch_tick 10 n (launch_entry mission_start)
    launch_from_start_loop.1 launch_from_start_loop.2 hn
  refine ⟨launch_exit (launch_tick^[10] (launch_entry mission_start)), ?_, ?_⟩
  · unfold launch; rw [hloop]; rfl
  · generalize launch_tick^[10] (launch_entry mission_start) = r at *
    norm_num at i1 i2 i3
    have hc := launch_exit_craft r
    rw [i3] at hc
    norm_num at hc
    rw [launch_exit_exhaustions, hc]
    refine ⟨rfl, i1, i2, i3, i4, ?_, i7⟩
    unfold launch_exit emergencies at *
    split_ifs <;> simpa using i6

/-! ### `validate_return_route`, `return_to_earth` -/

theorem validate_return_route_altitude (w : World) :
    (validate_return_route w).craft.altitude =
      if w.craft.altitude > 300 ∨ w.craft.altitude < 0 then 100 else w.craft.altitude := by
  unfold validate_return_route
  norm_num
  split_ifs <;> simp_all

theorem validate_return_route_frame (w : World) :
    (validate_return_route w).craft.state = w.craft.state ∧
    (validate_return_route w).craft.fuel_level = w.craft.fuel_level ∧
    (validate_return_route w).craft.systems_nominal = w.craft.systems_nominal ∧
    (validate_return_route w).craft.fault_time = w.craft.fault_time := by
  unfold validate_return_route
  dsimp only
  split_ifs <;> simp

theorem validate_return_route_emergencies (w : World) :
    emergencies (validate_return_route w) = emergencies w := by
  unfold validate_return_route emergencies
  dsimp only
  split_ifs <;> simp [List.count_cons]

theorem return_tick_eq (w : World) :
    return_tick w = send_telemetry (validate_return_route (return_advance w)) := rfl

theorem return_advance_altitude (w : World) :
    (return_advance w).craft.altitude = w.craft.altitude - 10 := by
  unfold return_advance
  dsimp only
  split_ifs <;> simp

theorem return_advance_frame (w : World) :
    (return_advance w).craft.state = w.craft.state ∧
    (return_advance w).craft.fuel_level = (consume_fuel 1.5 w).craft.fuel_level ∧
    (return_advance w).craft.systems_nominal = (consume_fuel 1.5 w).craft.systems_nominal ∧
    emergencies (return_advance w) = emergencies w := by
  have h := consume_fuel_emergencies 1.5 w
  unfold return_advance emergencies at *
  dsimp only
  split_ifs <;> simp [h]

theorem return_tick_altitude (w : World) :
    (return_tick w).craft.altitude =
      if w.craft.altitude - 10 > 300 ∨ w.craft.altitude - 10 < 0 then 100
      else w.craft.altitude - 10 := by
  rw [return_tick_eq, send_telemetry_craft, validate_return_route_altitude,
    return_advance_altitude]

theorem return_tick_frame (w : World) :
    (return_tick w).craft.state = w.craft.state ∧
    (return_tick w).craft.fuel_level = (consume_fuel 1.5 w).craft.fuel_level ∧
    (return_tick w).craft.systems_nominal = (consume_fuel 1.5 w).craft.systems_nominal ∧
    emergencies (return_tick w) = emergencies w := by
  obtain ⟨a1, a2, a3, a4⟩ := return_advance_frame w
  obtain ⟨v1, v2, v3, _⟩ := validate_return_route_frame (return_advance w)
  have v5 := validate_return_route_emergencies (return_advance w)
  rw [return_tick_eq, send_telemetry_craft, v1, v2, v3, a1, a2, a3]
  refine ⟨rfl, rfl, rfl, ?_⟩
  rw [← a4, ← v5]
  simp [emergencies]

theorem return_cond_iff (w : World) : return_cond w = true ↔ 0 < w.craft.altitude := by
  simp [return_cond]

theorem return_cond_false_iff (w : World) :
    return_cond w = false ↔ w.craft.altitude ≤ 0 := by
  rw [← Bool.not_eq_true, return_cond_iff, not_lt]

/-- Descent of `return_to_earth` from altitude 100: 10 lower after each of the first
10 iterations. -/
theorem return_from_100_iterate (e : World) (h : e.craft.altitude = 100) (k : ℕ)
    (hk : k ≤ 10) : (return_tick^[k] e).craft.altitude = 100 - 10 * k := by
  induction k with
  | zero => simpa using h
  | succ k ih =>
    have hk9 : (k : ℚ) ≤ 9 := by
      have : k ≤ 9 := by omega
      exact_mod_cast this
    have hk0 : (0 : ℚ) ≤ k := Nat.cast_nonneg k
    rw [Function.iterate_succ_apply', return_tick_altitude, ih (by omega)]
    rw [if_neg (by rw [not_or, not_lt, not_lt]; constructor <;> linarith)]
    push_cast; ring

theorem return_exit_craft (r : World) (h : r.craft.altitude ≤ 0) :
    (return_exit r).craft = { r.craft with state := SpacecraftState.LANDED } := by
  unfold return_exit
  rw [if_pos h]
  rfl

/-- Result of `return_to_earth` from altitude 100. -/
theorem return_from_100_result (w : World) (h : w.craft.altitude = 100) :
    (∀ j, j < 10 → return_cond (return_tick^[j] (return_entry w)) = true) ∧
    return_cond (return_tick^[10] (return_entry w)) = false ∧
    (return_tick^[10] (return_entry w)).craft.altitude = 0 ∧
    ∀ n, 10 ≤ n →
      return_to_earth n w = some (return_exit (return_tick^[10] (return_entry w))) := by
  have he : (return_entry w).craft.altitude = 100 := h
  have h10 := return_from_100_iterate (return_entry w) he 10 (le_refl 10)
  have hlt : ∀ j, j < 10 → return_cond (return_tick^[j] (return_entry w)) = true := by
    intro j hj
    have hj9 : (j : ℚ) ≤ 9 := by
      have : j ≤ 9 := by omega
      exact_mod_cast this
    rw [return_cond_iff, return_from_100_iterate _ he j (by omega)]
    linarith
  have hend : return_cond (return_tick^[10] (return_entry w)) = false := by
    rw [return_cond_false_iff, h10]; norm_num
  refine ⟨hlt, hend, by rw [h10]; norm_num, ?_⟩
  intro n hn
  unfold return_to_earth
  rw [while_loop_iterate return_cond return_tick 10 n (return_entry w) hlt hend hn]
  rfl

/-! ### `orbit` -/

theorem update_coordinates_frame (w : World) :
    (update_coordinates w).out = w.out ∧
    (update_coordinates w).craft.state = w.craft.state ∧
    (update_coordinates w).craft.fuel_level = w.craft.fuel_level ∧
    (update_coordinates w).craft.altitude = w.craft.altitude ∧
    (update_coordinates w).craft.velocity = w.craft.velocity ∧
    (update_coordinates w).craft.systems_nominal = w.craft.systems_nominal ∧
    (update_coordinates w).craft.fault_time = w.craft.fault_time := by
  unfold update_coordinates
  dsimp only
  split_ifs <;> simp

theorem validate_return_route_velocity (w : World) :
    (validate_return_route w).craft.velocity =
      if w.craft.altitude > 300 ∨ w.craft.altitude < 0 then 1 else w.craft.velocity := by
  unfold validate_return_route
  norm_num
  split_ifs <;> simp_all

theorem validate_return_route_out (w : World) :
    (validate_return_route w).out =
      (if w.craft.altitude > 300 ∨ w.craft.altitude < 0 then w.out ++ [Event.deviation]
        else w.out) ++ [Event.telemetry] := by
  unfold validate_return_route
  norm_num
  split_ifs <;> simp_all

/-- One stabilization iteration of a craft inside the altitude envelope: only fuel
(and the coordinates) change while the tank does not run dry. -/
theorem orbit_tick_spec (w : World) (ha : 0 ≤ w.craft.altitude) (ha2 : w.craft.altitude ≤ 300) :
    (orbit_tick w).craft.altitude = w.craft.altitude ∧
    (orbit_tick w).craft.velocity = w.craft.velocity ∧
    (orbit_tick w).craft.state = w.craft.state ∧
    (orbit_tick w).craft.fuel_level = (consume_fuel 1.0 w).craft.fuel_level ∧
    (orbit_tick w).craft.systems_nominal = (consume_fuel 1.0 w).craft.systems_nominal ∧
    (orbit_tick w).craft.fault_time = w.craft.fault_time ∧
    (orbit_tick w).out = (consume_fuel 1.0 w).out ++ [Event.telemetry, Event.telemetry] := by
  obtain ⟨u1, u2, u3, u4, u5, u6, u7⟩ := update_coordinates_frame (consume_fuel 1.0 w)
  obtain ⟨v1, v2, v3, v4⟩ := validate_return_route_frame (update_coordinates (consume_fuel 1.0 w))
  have v5 := validate_return_route_altitude (update_coordinates (consume_fuel 1.0 w))
  have v6 := validate_return_route_velocity (update_coordinates (consume_fuel 1.0 w))
  have v7 := validate_return_route_out (update_coordinates (consume_fuel 1.0 w))
  have hno : ¬ (w.craft.altitude > 300 ∨ w.craft.altitude < 0) := by
    rw [not_or, not_lt, not_lt]; exact ⟨ha2, ha⟩
  rw [u4, consume_fuel_altitude, if_neg hno] at v5 v6 v7
  have ht : orbit_tick w =
      send_telemetry (validate_return_route (update_coordinates (consume_fuel 1.0 w))) := rfl
  rw [ht, send_telemetry_craft, send_telemetry_out, v1, v2, v3, v4, v5, v6, v7, u1, u2, u3,
    u5, u6, u7]
  simp

/-- Stabilization of a craft cruising at altitude 100 and velocity 10 with nominal
systems: each of the `k` iterations draws 3 units of fuel and nothing else of the
phase, altitude, velocity and systems flag changes. -/
theorem orbit_loop_cruise (now : Int) (k : ℕ) : ∀ w : World,
    w.craft.altitude = 100 → w.craft.velocity = 10 → w.craft.systems_nominal = true →
    3 * (k : ℚ) < w.craft.fuel_level →
    (orbit_loop now k w).craft.altitude = 100 ∧
    (orbit_loop now k w).craft.velocity = 10 ∧
    (orbit_loop now k w).craft.systems_nominal = true ∧
    (orbit_loop now k w).craft.state = w.craft.state ∧
    (orbit_loop now k w).craft.fuel_level = w.craft.fuel_level - 3 * k ∧
    returns (orbit_loop now k w) = returns w ∧
    emergencies (orbit_loop now k w) = emergencies w := by
  induction k with
  | zero =>
    intro w ha hv hs _
    simp [orbit_loop, ha, hv, hs, returns, emergencies, List.count_cons]
  | succ k ih =>
    intro w ha hv hs hf
    have hk0 : (0 : ℚ) ≤ k := Nat.cast_nonneg k
    push_cast at hf
    have hdc : dynamic_consumption 1.0 w.craft = 3 := by
      unfold dynamic_consumption; rw [ha, hv]; norm_num
    have hgt : w.craft.fuel_level > dynamic_consumption 1.0 w.craft := by
      rw [hdc]; linarith
    obtain ⟨t1, t2, t3, t4, t5, _, t7⟩ :=
      orbit_tick_spec w (by rw [ha]; norm_num) (by rw [ha]; norm_num)
    rw [consume_fuel_fuel, if_pos hgt, hdc] at t4
    rw [consume_fuel_systems, hs] at t5
    rw [consume_fuel_out, if_pos hgt] at t7
    have t5' : (orbit_tick w).craft.systems_nominal = true := by rw [t5]; simp [hgt]
    obtain ⟨i1, i2, i3, i4, i5, i6, i7⟩ :=
      ih (orbit_tick w) (by rw [t1, ha]) (by rw [t2, hv]) t5' (by rw [t4]; linarith)
    have ho : orbit_loop now (k + 1) w = orbit_loop now k (orbit_tick w) := by
      rw [orbit_loop]; simp [hs]
    rw [ho]
    refine ⟨i1, i2, i3, by rw [i4, t3], by rw [i5, t4]; push_cast; ring, ?_, ?_⟩
    · rw [i6]; simp [returns, t7, List.count_cons]
    · rw [i7]; simp [emergencies, t7, List.count_cons]

/-- With a systems fault `orbit` only records the fault time. -/
theorem orbit_fault_eq (now : Int) (w : World) (h : w.craft.systems_nominal = false) :
    orbit now w =
      { craft := { w.craft with fault_time := now }
        out := w.out ++ [Event.orbitStart, Event.orbitFault] } := by
  simp [orbit, orbit_loop, h]

/-! ### `main` -/

theorem launch_advance_returns (w : World) :
    returns (launch_advance w) = returns w := by
  have h : (launch_advance w).out = (consume_fuel 2.0 w).out ++ [Event.telemetry] := rfl
  unfold returns
  rw [h, consume_fuel_out]
  split_ifs <;> simp [List.count_cons]

theorem launch_from_start_returns (k : ℕ) (hk : k ≤ 10) :
    returns (launch_tick^[k] (launch_entry mission_start)) = 0 := by
  induction k with
  | zero => simp [returns, launch_entry, mission_start, List.count_cons]
  | succ k ih =>
    obtain ⟨i1, i2, i3, i4, _⟩ := launch_from_start_iterate k (by omega)
    have hk9 : (k : ℚ) ≤ 9 := by
      have : k ≤ 9 := by omega
      exact_mod_cast this
    have hk0 : (0 : ℚ) ≤ k := Nat.cast_nonneg k
    have hfuel : dynamic_consumption 2.0 (launch_tick^[k] (launch_entry mission_start)).craft
        + 10 < (launch_tick^[k] (launch_entry mission_start)).craft.fuel_level := by
      unfold dynamic_consumption
      rw [i1, i2, i3]; norm_num; nlinarith
    rw [Function.iterate_succ_apply',
      launch_tick_nominal _ i4 hfuel (by rw [i1]; linarith), launch_advance_returns]
    exact ih (by omega)

theorem launch_exit_returns (r : World) : returns (launch_exit r) = returns r := by
  unfold launch_exit returns
  split_ifs <;> simp [List.count_cons]

theorem mission_report_craft (w : World) : (mission_report w).craft = w.craft := by
  unfold mission_report
  split_ifs <;> rfl

theorem mission_report_last (w : World) :
    (mission_report w).out.getLast? =
      some (if w.craft.state = SpacecraftState.LANDED then Event.missionComplete
        else Event.missionFailed) := by
  unfold mission_report
  split_ifs <;> simp

theorem mission_report_returns (w : World) : returns (mission_report w) = returns w := by
  unfold mission_report returns
  split_ifs <;> simp [List.count_cons]

/-- The mission up to the operator dialogue: `launch` reaches Orbit and `orbit`
stabilizes the craft at altitude 100 with nominal systems. -/
theorem mission_to_dialogue (n : ℕ) (hn : 10 ≤ n) (t_fault t_check : Int)
    (command confirm : Char) :
    ∃ o : World, o.craft.altitude = 100 ∧ o.craft.state = SpacecraftState.ORBIT ∧
      returns o = 0 ∧
      main n t_fault t_check command confirm =
        (command_dialogue n command confirm o).map mission_report := by
  obtain ⟨l, h1, h2, h3, h4, h5, h6, _, _⟩ := launch_from_start_result n hn
  have hl : l = launch_exit (launch_tick^[10] (launch_entry mission_start)) := by
    have hloop := while_loop_iterate launch_cond launch_tick 10 n (launch_entry mission_start)
      launch_from_start_loop.1 launch_from_start_loop.2 hn
    unfold launch at h1
    rw [hloop] at h1
    simpa using h1.symm
  have hret : returns l = 0 := by
    rw [hl, launch_exit_returns]; exact launch_from_start_returns 10 (le_refl 10)
  obtain ⟨o1, _, o3, o4, _, o6, _⟩ :=
    orbit_loop_cruise t_fault 5 (emit Event.orbitStart l) h3 h4 h6
      (by rw [emit_craft, h5]; norm_num)
  have ho : orbit t_fault l = orbit_loop t_fault 5 (emit Event.orbitStart l) := rfl
  refine ⟨orbit t_fault l, o1, by rw [ho, o4]; exact h2, ?_, ?_⟩
  · rw [ho, o6]
    simpa [returns, List.count_cons] using hret
  · have os : (orbit t_fault l).craft.systems_nominal = true := o3
    unfold main
    rw [h1]
    simp [h2, os]

/-- The dialogue when both tokens are affirmative: `return_to_earth` runs. -/
theorem command_dialogue_accept (n : ℕ) (command confirm : Char) (o : World)
    (h1 : command = 'r' ∨ command = 'R') (h2 : confirm = 'y' ∨ confirm = 'Y') :
    command_dialogue n command confirm o =
      return_to_earth n (emit Event.confirmPrompt (emit Event.commandPrompt o)) := by
  unfold command_dialogue
  simp only [h1, h2, if_true]

/-- The dialogue when a token is not affirmative: only prompts and a cancel line are
written. -/
theorem command_dialogue_cancel (n : ℕ) (command confirm : Char) (o : World)
    (h : ¬ ((command = 'r' ∨ command = 'R') ∧ (confirm = 'y' ∨ confirm = 'Y'))) :
    ∃ r, command_dialogue n command confirm o = some r ∧ r.craft = o.craft ∧
      returns r = returns o := by
  unfold command_dialogue
  by_cases h1 : command = 'r' ∨ command = 'R'
  · have h2 : ¬ (confirm = 'y' ∨ confirm = 'Y') := fun h2 => h ⟨h1, h2⟩
    simp only [h1, h2, if_true, if_false]
    exact ⟨_, rfl, rfl, by simp [returns, List.count_cons]⟩
  · simp only [h1, if_false]
    exact ⟨_, rfl, rfl, by simp [returns, List.count_cons]⟩

/-! ### escalation outside `launch` -/

theorem validate_return_route_systems (w : World) :
    (validate_return_route w).craft.systems_nominal = w.craft.systems_nominal :=
  (validate_return_route_frame w).2.2.1

theorem orbit_tick_frame (w : World) :
    (orbit_tick w).craft.state = w.craft.state ∧
    (orbit_tick w).craft.systems_nominal = (consume_fuel 1.0 w).craft.systems_nominal ∧
    emergencies (orbit_tick w) = emergencies w := by
  obtain ⟨u1, u2, _, _, _, u6, _⟩ := update_coordinates_frame (consume_fuel 1.0 w)
  obtain ⟨v1, _, v3, _⟩ := validate_return_route_frame (update_coordinates (consume_fuel 1.0 w))
  have v5 := validate_return_route_emergencies (update_coordinates (consume_fuel 1.0 w))
  have ht : orbit_tick w =
      send_telemetry (validate_return_route (update_coordinates (consume_fuel 1.0 w))) := rfl
  have hc := consume_fuel_emergencies 1.0 w
  rw [ht, send_telemetry_craft, v1, v3, u2, u6]
  refine ⟨by simp, rfl, ?_⟩
  unfold emergencies at *
  rw [send_telemetry_out, List.count_append, v5, u1, hc]
  simp [List.count_cons]

theorem orbit_loop_frame (now : Int) (k : ℕ) : ∀ w : World,
    (orbit_loop now k w).craft.state = w.craft.state ∧
    emergencies (orbit_loop now k w) = emergencies w := by
  induction k with
  | zero => intro w; simp [orbit_loop, emergencies, List.count_cons]
  | succ k ih =>
    intro w
    rw [orbit_loop]
    by_cases hs : w.craft.systems_nominal = true
    · simp only [hs, Bool.not_true, Bool.false_eq_true, if_false]
      obtain ⟨i1, i2⟩ := ih (orbit_tick w)
      obtain ⟨t1, _, t3⟩ := orbit_tick_frame w
      exact ⟨by rw [i1, t1], by rw [i2, t3]⟩
    · have hs' : w.craft.systems_nominal = false := by simpa using hs
      simp [hs', emergencies, List.count_cons]

theorem orbit_frame (now : Int) (w : World) :
    (orbit now w).craft.state = w.craft.state ∧ emergencies (orbit now w) = emergencies w := by
  obtain ⟨h1, h2⟩ := orbit_loop_frame now 5 (emit Event.orbitStart w)
  have ho : orbit now w = orbit_loop now 5 (emit Event.orbitStart w) := rfl
  exact ⟨h1, by rw [ho, h2]; simp [emergencies, List.count_cons]⟩

theorem return_iterate_frame (w : World) (k : ℕ) :
    (return_tick^[k] w).craft.state = w.craft.state ∧
    emergencies (return_tick^[k] w) = emergencies w ∧
    (w.craft.systems_nominal = false →
      (return_tick^[k] w).craft.systems_nominal = false) := by
  induction k with
  | zero => exact ⟨rfl, rfl, fun h => h⟩
  | succ k ih =>
    obtain ⟨i1, i2, i3⟩ := ih
    obtain ⟨t1, _, t3, t4⟩ := return_tick_frame (return_tick^[k] w)
    rw [Function.iterate_succ_apply', t1, t3, t4, consume_fuel_systems]
    exact ⟨i1, i2, fun h => by rw [i3 h]; rfl⟩

theorem return_to_earth_emergencies (n : ℕ) (w r : World)
    (h : return_to_earth n w = some r) : emergencies r = emergencies w := by
  unfold return_to_earth at h
  cases hl : while_loop return_cond return_tick n (return_entry w) with
  | none => rw [hl] at h; simp at h
  | some v =>
    rw [hl] at h
    simp only [Option.map_some', Option.some.injEq] at h
    obtain ⟨k, _, hv, _, _⟩ := while_loop_some _ _ _ _ _ hl
    have h2 := (return_iterate_frame (return_entry w) k).2.1
    rw [← hv] at h2
    rw [← h]
    unfold return_exit emergencies at *
    split_ifs <;> simpa [return_entry, List.count_cons] using h2

/-- A test of `safety_checks` fires on a craft with at most 10 units of fuel, or more
than 300 of altitude, or a systems fault. -/
theorem safety_checks_fires (w : World)
    (h : w.craft.fuel_level ≤ 10 ∨ 300 < w.craft.altitude ∨ w.craft.systems_nominal = false) :
    emergencies w < emergencies (safety_checks w) := by
  rw [safety_checks_eq]
  dsimp only
  by_cases h1 : w.craft.fuel_level ≤ 10
  · rw [if_pos h1]
    have e1 := emergency_protocol_log_emergencies ErrorMsg.fuelCritical w
    generalize emergency_protocol (log_error ErrorMsg.fuelCritical w) = w1 at *
    have e2 := emergency_protocol_log_emergencies ErrorMsg.altitudeAboveLimit w1
    split_ifs
    all_goals first
      | omega
      | (rw [emergency_protocol_log_emergencies]; omega)
  · rw [if_neg h1]
    by_cases h2 : 300 < w.craft.altitude
    · rw [if_pos h2]
      have e2 := emergency_protocol_log_emergencies ErrorMsg.altitudeAboveLimit w
      split_ifs
      all_goals first
        | omega
        | (rw [emergency_protocol_log_emergencies]; omega)
    · rw [if_neg h2]
      have h3 : w.craft.systems_nominal = false := by tauto
      rw [if_pos h3, emergency_protocol_log_emergencies]; omega

/-! ### coordinates -/

theorem validate_return_route_latitude (w : World) :
    (validate_return_route w).craft.latitude =
      if w.craft.latitude > 90 then 90
      else if w.craft.latitude < -90 then -90 else w.craft.latitude := by
  unfold validate_return_route
  norm_num
  split_ifs <;> simp_all <;> linarith

theorem validate_return_route_longitude (w : World) :
    (validate_return_route w).craft.longitude =
      if w.craft.longitude > 180 then w.craft.longitude - 360
      else if w.craft.longitude < -180 then w.craft.longitude + 360
      else w.craft.longitude := by
  unfold validate_return_route
  norm_num
  split_ifs <;> simp_all <;> linarith

theorem update_coordinates_latitude (w : World) :
    (update_coordinates w).craft.latitude =
      if w.craft.latitude + w.craft.velocity * 0.005 > 90 then 90
      else if w.craft.latitude + w.craft.velocity * 0.005 < -90 then -90
      else w.craft.latitude + w.craft.velocity * 0.005 := by
  unfold update_coordinates
  norm_num
  split_ifs <;> simp_all <;> linarith

theorem update_coordinates_longitude (w : World) :
    (update_coordinates w).craft.longitude =
      if w.craft.longitude + w.craft.velocity * 0.01 > 180 then
        w.craft.longitude + w.craft.velocity * 0.01 - 360
      else if w.craft.longitude + w.craft.velocity * 0.01 < -180 then
        w.craft.longitude + w.craft.velocity * 0.01 + 360
      else w.craft.longitude + w.craft.velocity * 0.01 := by
  unfold update_coordinates
  norm_num
  split_ifs <;> simp_all <;> linarith

/-- The consumption computed by `consume_fuel` is at least the base consumption when
velocity and altitude are not negative. -/
theorem dynamic_consumption_ge (b : ℚ) (c : Spacecraft) (hv : 0 ≤ c.velocity)
    (ha : 0 ≤ c.altitude) : b ≤ dynamic_consumption b c := by
  unfold dynamic_consumption
  have h1 : 0 ≤ c.velocity * 0.1 := mul_nonneg hv (by norm_num)
  have h2 : 0 ≤ c.altitude * 0.01 := mul_nonneg ha (by norm_num)
  linarith

/-- Fuel does not grow in `consume_fuel` when the tank and the consumption are not
negative. -/
theorem consume_fuel_fuel_le (b : ℚ) (w : World) (hf : 0 ≤ w.craft.fuel_level)
    (hd : 0 ≤ dynamic_consumption b w.craft) :
    0 ≤ (consume_fuel b w).craft.fuel_level ∧
    (consume_fuel b w).craft.fuel_level ≤ w.craft.fuel_level := by
  rw [consume_fuel_fuel]
  split_ifs with h
  · constructor <;> linarith
  · exact ⟨le_refl 0, hf⟩

/-- Fuel does not grow in `calculate_safe_return` when the tank is not negative. -/
theorem calculate_safe_return_fuel_le (w : World) (hf : 0 ≤ w.craft.fuel_level) :
    0 ≤ (calculate_safe_return w).craft.fuel_level ∧
    (calculate_safe_return w).craft.fuel_level ≤ w.craft.fuel_level := by
  by_cases h0 : w.craft.fuel_level ≤ 0
  · rw [(calculate_safe_return_no_fuel w h0).1]
    exact ⟨hf, le_refl _⟩
  · rw [(calculate_safe_return_descent w (not_le.mp h0)).1]
    dsimp only
    split_ifs with h
    · constructor
      · linarith
      · norm_num
    · exact ⟨le_refl 0, hf⟩

/-- Fuel does not grow in `safety_checks` when the tank is not negative. -/
theorem safety_checks_fuel_le (w : World) (hf : 0 ≤ w.craft.fuel_level) :
    0 ≤ (safety_checks w).craft.fuel_level ∧
    (safety_checks w).craft.fuel_level ≤ w.craft.fuel_level := by
  have step : ∀ (m : ErrorMsg) (v : World), 0 ≤ v.craft.fuel_level →
      0 ≤ (emergency_protocol (log_error m v)).craft.fuel_level ∧
      (emergency_protocol (log_error m v)).craft.fuel_level ≤ v.craft.fuel_level := by
    intro m v hv
    rw [emergency_protocol_log_craft]
    exact calculate_safe_return_fuel_le v hv
  rw [safety_checks_eq]
  dsimp only
  have h1 : 0 ≤ (if w.craft.fuel_level ≤ 10 then
        emergency_protocol (log_error ErrorMsg.fuelCritical w) else w).craft.fuel_level ∧
      (if w.craft.fuel_level ≤ 10 then
        emergency_protocol (log_error ErrorMsg.fuelCritical w) else w).craft.fuel_level ≤
        w.craft.fuel_level := by
    split_ifs
    · exact step _ w hf
    · exact ⟨hf, le_refl _⟩
  generalize (if w.craft.fuel_level ≤ 10 then
    emergency_protocol (log_error ErrorMsg.fuelCritical w) else w) = w1 at *
  have h2 : 0 ≤ (if w1.craft.altitude > 300 then
        emergency_protocol (log_error ErrorMsg.altitudeAboveLimit w1)
        else w1).craft.fuel_level ∧
      (if w1.craft.altitude > 300 then
        emergency_protocol (log_error ErrorMsg.altitudeAboveLimit w1)
        else w1).craft.fuel_level ≤ w.craft.fuel_level := by
    split_ifs
    · exact ⟨(step _ w1 h1.1).1, le_trans (step _ w1 h1.1).2 h1.2⟩
    · exact h1
  generalize (if w1.craft.altitude > 300 then
    emergency_protocol (log_error ErrorMsg.altitudeAboveLimit w1) else w1) = w2 at *
  split_ifs
  · exact ⟨(step _ w2 h2.1).1, le_trans (step _ w2 h2.1).2 h2.2⟩
  · exact h2

theorem orbit_tick_fuel (w : World) :
    (orbit_tick w).craft.fuel_level = (consume_fuel 1.0 w).craft.fuel_level := by
  have ht : orbit_tick w =
      send_telemetry (validate_return_route (update_coordinates (consume_fuel 1.0 w))) := rfl
  rw [ht, send_telemetry_craft, (validate_return_route_frame _).2.1,
    (update_coordinates_frame _).2.2.1]

theorem return_advance_velocity (w : World) :
    (return_advance w).craft.velocity =
      if w.craft.velocity - 0.5 < 0 then 0 else w.craft.velocity - 0.5 := by
  unfold return_advance
  dsimp only
  split_ifs <;> simp_all

theorem return_tick_velocity (w : World) :
    (return_tick w).craft.velocity =
      if w.craft.altitude - 10 > 300 ∨ w.craft.altitude - 10 < 0 then 1
      else if w.craft.velocity - 0.5 < 0 then 0 else w.craft.velocity - 0.5 := by
  rw [return_tick_eq, send_telemetry_craft, validate_return_route_velocity,
    return_advance_altitude, return_advance_velocity]

/-- When the loop condition of `launch` fails at entry no iteration is run. -/
theorem launch_no_tick (n : ℕ) (w : World) (h : launch_cond (launch_entry w) = false) :
    launch n w = some (launch_exit (launch_entry w)) := by
  unfold launch
  rw [while_loop_iterate launch_cond launch_tick 0 n (launch_entry w)
    (fun j hj => absurd hj (by omega)) h (Nat.zero_le n)]
  rfl

theorem lands_in_succ (k : ℕ) (v : World) (hc : return_cond v = true)
    (h : lands_in k (return_tick v)) : lands_in (k + 1) v := by
  obtain ⟨h1, h2, h3⟩ := h
  refine ⟨by rw [Function.iterate_succ_apply]; exact h1, ?_,
    by rw [Function.iterate_succ_apply]; exact h3⟩
  intro j hj
  cases j with
  | zero => exact hc
  | succ j =>
    rw [Function.iterate_succ_apply]
    exact h2 j (by omega)

theorem lands_in_ten (v : World) (h : v.craft.altitude = 100) : lands_in 10 v := by
  have h10 := return_from_100_iterate v h 10 (le_refl 10)
  refine ⟨?_, ?_, by rw [h10]; norm_num⟩
  · rw [return_cond_false_iff, h10]; norm_num
  · intro j hj
    have hj9 : (j : ℚ) ≤ 9 := by
      have : j ≤ 9 := by omega
      exact_mod_cast this
    rw [return_cond_iff, return_from_100_iterate v h j (by omega)]
    linarith

/-- From an altitude in (0, 10 m] with `m <= 31` the loop of `return_to_earth` lands
within `m + 10` iterations: it goes down by 10 per iteration and, when it steps below
0, restarts from 100. -/
theorem return_lands_low (m : ℕ) : ∀ v : World, 0 < v.craft.altitude →
    v.craft.altitude ≤ 10 * m → m ≤ 31 → ∃ k, k ≤ m + 10 ∧ lands_in k v := by
  induction m with
  | zero =>
    intro v h0 h1 _
    norm_num at h1
    linarith
  | succ m ih =>
    intro v h0 h1 hm
    have hm' : (m : ℚ) ≤ 30 := by
      have : m ≤ 30 := by omega
      exact_mod_cast this
    push_cast at h1
    have hc : return_cond v = true := (return_cond_iff v).mpr h0
    have ht := return_tick_altitude v
    rcases lt_trichotomy v.craft.altitude 10 with hlt | heq | hgt
    · rw [if_pos (Or.inr (by linarith))] at ht
      exact ⟨11, by omega, lands_in_succ 10 v hc (lands_in_ten _ ht)⟩
    · rw [if_neg (by rw [not_or, not_lt, not_lt]; constructor <;> linarith)] at ht
      refine ⟨1, by omega, lands_in_succ 0 v hc ⟨?_, fun j hj => absurd hj (by omega), ?_⟩⟩
      · rw [Function.iterate_zero, id_eq, return_cond_false_iff, ht, heq]; norm_num
      · rw [Function.iterate_zero, id_eq, ht, heq]; norm_num
    · rw [if_neg (by rw [not_or, not_lt, not_lt]; constructor <;> linarith)] at ht
      obtain ⟨k, hk, hl⟩ := ih (return_tick v) (by rw [ht]; linarith) (by rw [ht]; linarith)
        (by omega)
      exact ⟨k + 1, by omega, lands_in_succ k v hc hl⟩

/-- The loop of `return_to_earth` stops from every state within 41 iterations, at
altitude 0 when it started above 0. -/
theorem return_terminates (v : World) :
    ∃ k, k ≤ 41 ∧ return_cond (return_tick^[k] v) = false ∧
      (∀ j, j < k → return_cond (return_tick^[j] v) = true) ∧
      (0 < v.craft.altitude → (return_tick^[k] v).craft.altitude = 0) := by
  by_cases h0 : 0 < v.craft.altitude
  · by_cases h310 : v.craft.altitude ≤ 310
    · obtain ⟨k, hk, h1, h2, h3⟩ := return_lands_low 31 v h0 (by norm_num; exact h310)
        (le_refl 31)
      exact ⟨k, by omega, h1, h2, fun _ => h3⟩
    · have ht := return_tick_altitude v
      rw [if_pos (Or.inl (by linarith))] at ht
      obtain ⟨h1, h2, h3⟩ := lands_in_succ 10 v ((return_cond_iff v).mpr h0)
        (lands_in_ten _ ht)
      exact ⟨11, by omega, h1, h2, fun _ => h3⟩
  · refine ⟨0, by omega, ?_, fun j hj => absurd hj (by omega), fun h => absurd h h0⟩
    rw [Function.iterate_zero, id_eq, return_cond_false_iff]
    exact not_lt.mp h0

/-- Result of `return_to_earth` on any craft. -/
theorem return_to_earth_result (w : World) :
    ∃ k, k ≤ 41 ∧ return_cond (return_tick^[k] (return_entry w)) = false ∧
      (∀ j, j < k → return_cond (return_tick^[j] (return_entry w)) = true) ∧
      (0 < w.craft.altitude → (return_tick^[k] (return_entry w)).craft.altitude = 0) ∧
      ∀ n, k ≤ n →
        return_to_earth n w = some (return_exit (return_tick^[k] (return_entry w))) ∧
        (return_exit (return_tick^[k] (return_entry w))).craft =
          { (return_tick^[k] (return_entry w)).craft with
            state := SpacecraftState.LANDED } := by
  obtain ⟨k, hk, h1, h2, h3⟩ := return_terminates (return_entry w)
  refine ⟨k, hk, h1, h2, h3, fun n hn => ⟨?_, ?_⟩⟩
  · unfold return_to_earth
    rw [while_loop_iterate return_cond return_tick k n (return_entry w) h2 h1 hn]
    rfl
  · exact return_exit_craft _ ((return_cond_false_iff _).mp h1)

/-! ### the systems flag and the Landed phase -/

/-- What `calculate_safe_return` does to the phase and to a systems fault. -/
theorem calculate_safe_return_sticky (w : World) :
    (w.craft.systems_nominal = false →
      (calculate_safe_return w).craft.systems_nominal = false) ∧
    (w.craft.state = SpacecraftState.LANDED →
      (calculate_safe_return w).craft.state = SpacecraftState.LANDED) := by
  by_cases h0 : w.craft.fuel_level ≤ 0
  · rw [(calculate_safe_return_no_fuel w h0).1]
    exact ⟨fun h => h, fun h => h⟩
  · rw [(calculate_safe_return_descent w (not_le.mp h0)).1]
    exact ⟨fun h => by simp [h], fun _ => rfl⟩

/-- What `safety_checks` does to the phase and to a systems fault. -/
theorem safety_checks_sticky (w : World) :
    (w.craft.systems_nominal = false → (safety_checks w).craft.systems_nominal = false) ∧
    (w.craft.state = SpacecraftState.LANDED →
      (safety_checks w).craft.state = SpacecraftState.LANDED) := by
  have step : ∀ (m : ErrorMsg) (v : World),
      (v.craft.systems_nominal = false →
        (emergency_protocol (log_error m v)).craft.systems_nominal = false) ∧
      (v.craft.state = SpacecraftState.LANDED →
        (emergency_protocol (log_error m v)).craft.state = SpacecraftState.LANDED) := by
    intro m v
    rw [emergency_protocol_log_craft]
    exact calculate_safe_return_sticky v
  rw [safety_checks_eq]
  dsimp only
  constructor
  · intro h
    split_ifs <;>
      first
        | exact h
        | exact (step _ _).1 h
        | exact (step _ _).1 ((step _ _).1 h)
        | exact (step _ _).1 ((step _ _).1 ((step _ _).1 h))
  · intro h
    split_ifs <;>
      first
        | exact h
        | exact (step _ _).2 h
        | exact (step _ _).2 ((step _ _).2 h)
        | exact (step _ _).2 ((step _ _).2 ((step _ _).2 h))

/-- A systems fault stays through the iterations of the loop of `launch`. -/
theorem launch_iterate_systems (w : World) (h : w.craft.systems_nominal = false) (k : ℕ) :
    (launch_tick^[k] w).craft.systems_nominal = false := by
  induction k with
  | zero => exact h
  | succ k ih =>
    rw [Function.iterate_succ_apply', launch_tick_eq]
    apply (safety_checks_sticky _).1
    rw [launch_advance_systems, ih]
    rfl

/-- Result of `launch` on any craft. -/
theorem launch_result (w : World) :
    ∃ k, launch_cond (launch_tick^[k] (launch_entry w)) = false ∧
      (∀ j, j < k → launch_cond (launch_tick^[j] (launch_entry w)) = true) ∧
      ∀ n, k ≤ n →
        launch n w = some (launch_exit (launch_tick^[k] (launch_entry w))) := by
  obtain ⟨k, hk, hj, hn⟩ :=
    while_loop_terminates launch_cond launch_tick (launch_entry w)
      (launch_terminates (launch_entry w))
  refine ⟨k, hk, hj, fun n hkn => ?_⟩
  unfold launch
  rw [hn n hkn]
  rfl

/-- C1: with `fuel_level <= 0` the emergency procedure `calculate_safe_return` sets
altitude to `max (altitude - 50) 0` and velocity to 0 and leaves phase (so a craft
that was not Landed is still not Landed), fuel_level, systems_nominal, latitude and
longitude unchanged. -/
theorem calculate_safe_return_empty_tank (w : World) (h : w.craft.fuel_level ≤ 0) :
    (calculate_safe_return w).craft.altitude = max (w.craft.altitude - 50) 0 ∧
    (calculate_safe_return w).craft.velocity = 0 ∧
    (calculate_safe_return w).craft.state = w.craft.state ∧
    (w.craft.state ≠ SpacecraftState.LANDED →
      (calculate_safe_return w).craft.state ≠ SpacecraftState.LANDED) ∧
    (calculate_safe_return w).craft.fuel_level = w.craft.fuel_level ∧
    (calculate_safe_return w).craft.systems_nominal = w.craft.systems_nominal ∧
    (calculate_safe_return w).craft.latitude = w.craft.latitude ∧
    (calculate_safe_return w).craft.longitude = w.craft.longitude := by
  rw [(calculate_safe_return_no_fuel w h).1]
  exact ⟨rfl, rfl, rfl, fun hs => hs, rfl, rfl, rfl, rfl⟩

/-- Witness for C1 at the drained craft: altitude 200 falls to 150. -/
theorem calculate_safe_return_empty_tank_witness :
    drained.craft.fuel_level ≤ 0 ∧
    (calculate_safe_return drained).craft.altitude = 150 ∧
    (calculate_safe_return drained).craft.velocity = 0 ∧
    (calculate_safe_return drained).craft.state = SpacecraftState.ORBIT := by
  have h := calculate_safe_return_empty_tank drained (by norm_num [drained])
  refine ⟨by norm_num [drained], ?_, h.2.1, h.2.2.1⟩
  rw [h.1]; norm_num [drained]

/-- C2: with `fuel_level > 0` the forced-descent loop of `calculate_safe_return`
lowers altitude on every iteration, runs exactly 10 iterations (the loop condition
holds before each of the first 10 and fails after the 10th, whatever the fuel
does), and `calculate_safe_return` ends with phase Landed and altitude 0. -/
theorem calculate_safe_return_forced_descent (w : World) (h : 0 < w.craft.fuel_level) :
    (∀ v : World, (descent_tick v).craft.altitude < v.craft.altitude) ∧
    (∀ k, k < 10 → 0 < (descent_tick^[k] (descent_entry w)).craft.altitude) ∧
    ¬ 0 < (descent_tick^[10] (descent_entry w)).craft.altitude ∧
    descent_loop (descent_entry w) = descent_tick^[10] (descent_entry w) ∧
    (calculate_safe_return w).craft.state = SpacecraftState.LANDED ∧
    (calculate_safe_return w).craft.altitude = 0 := by
  have he := descent_entry_craft w
  have hspec := descent_iterate_spec (descent_entry w) (by rw [he]) (by rw [he])
    (by rw [he]; exact h)
  refine ⟨?_, ?_, ?_, descent_from_entry w, ?_, ?_⟩
  · intro v
    rw [descent_tick_altitude]; linarith
  · intro k hk
    rw [(hspec k (by omega)).1]
    have : (k : ℚ) ≤ 9 := by
      have : k ≤ 9 := by omega
      exact_mod_cast this
    linarith
  · rw [(hspec 10 (le_refl 10)).1]; norm_num
  · rw [(calculate_safe_return_descent w h).1]
  · rw [(calculate_safe_return_descent w h).1]

/-- Witness for C2 at a craft in orbit with 56 units of fuel. -/
theorem calculate_safe_return_forced_descent_witness :
    0 < cruising.craft.fuel_level ∧
    descent_loop (descent_entry cruising) = descent_tick^[10] (descent_entry cruising) ∧
    (calculate_safe_return cruising).craft.state = SpacecraftState.LANDED ∧
    (calculate_safe_return cruising).craft.altitude = 0 := by
  have h := calculate_safe_return_forced_descent cruising (by norm_num [cruising])
  exact ⟨by norm_num [cruising], h.2.2.2.1, h.2.2.2.2.1, h.2.2.2.2.2⟩

/-- C4: from the initialized craft the loop of `launch` runs exactly 10 iterations
(so at most 15), the tank never runs dry and the emergency procedure is never
invoked, and `launch` returns with phase Orbit, altitude 100, velocity 10 and
fuel_level 71. -/
theorem launch_from_start :
    (∀ j, j < 10 → launch_cond (launch_tick^[j] (launch_entry mission_start)) = true) ∧
    launch_cond (launch_tick^[10] (launch_entry mission_start)) = false ∧
    (∀ j, j ≤ 10 →
      0 < (launch_tick^[j] (launch_entry mission_start)).craft.fuel_level ∧
      emergencies (launch_tick^[j] (launch_entry mission_start)) = 0) ∧
    (∀ n, 10 ≤ n → ∃ r, launch n mission_start = some r ∧
      r.craft.state = SpacecraftState.ORBIT ∧ 100 ≤ r.craft.altitude ∧
      r.craft.altitude = 100 ∧ r.craft.velocity = 10 ∧ r.craft.fuel_level = 71 ∧
      emergencies r = 0 ∧ exhaustions r = 0) := by
  refine ⟨launch_from_start_loop.1, launch_from_start_loop.2, ?_, ?_⟩
  · intro j hj
    obtain ⟨_, _, i3, _, _, i6, _⟩ := launch_from_start_iterate j hj
    have hj9 : (j : ℚ) ≤ 10 := by exact_mod_cast hj
    have hj0 : (0 : ℚ) ≤ j := Nat.cast_nonneg j
    refine ⟨?_, i6⟩
    rw [i3]; nlinarith
  · intro n hn
    obtain ⟨r, h1, h2, h3, h4, h5, _, h7, h8⟩ := launch_from_start_result n hn
    exact ⟨r, h1, h2, by rw [h3], h3, h4, h5, h7, h8⟩

/-- Witness for C4 with a budget of 15 iterations. -/
theorem launch_from_start_witness :
    ∃ r, launch 15 mission_start = some r ∧
      r.craft.state = SpacecraftState.ORBIT ∧ 100 ≤ r.craft.altitude ∧
      r.craft.altitude = 100 ∧ r.craft.velocity = 10 ∧ r.craft.fuel_level = 71 ∧
      emergencies r = 0 ∧ exhaustions r = 0 :=
  launch_from_start.2.2.2 15 (by decide)

/-- C5: from altitude 100, whatever the fuel, velocity and systems flag, the loop of
`return_to_earth` runs exactly 10 iterations and `return_to_earth` returns with
altitude 0 and phase Landed. -/
theorem return_from_100 (w : World) (h : w.craft.altitude = 100) :
    (∀ j, j < 10 → return_cond (return_tick^[j] (return_entry w)) = true) ∧
    return_cond (return_tick^[10] (return_entry w)) = false ∧
    ∀ n, 10 ≤ n → ∃ r, return_to_earth n w = some r ∧
      r.craft.altitude = 0 ∧ r.craft.state = SpacecraftState.LANDED := by
  obtain ⟨h1, h2, h3, h4⟩ := return_from_100_result w h
  refine ⟨h1, h2, fun n hn => ⟨_, h4 n hn, ?_⟩⟩
  rw [return_exit_craft _ (by rw [h3])]
  exact ⟨h3, rfl⟩

/-- Witness for C5 at the cruising craft, with a budget of 10 iterations. -/
theorem return_from_100_witness :
    cruising.craft.altitude = 100 ∧
    ∃ r, return_to_earth 10 cruising = some r ∧
      r.craft.altitude = 0 ∧ r.craft.state = SpacecraftState.LANDED :=
  ⟨rfl, (return_from_100 cruising rfl).2.2 10 (le_refl 10)⟩

/-- C6: with `systems_nominal == false` `orbit` halts before any stabilization
iteration: it writes its start line and its fault line, sets `fault_time` to the
current time and leaves phase, fuel_level, altitude, velocity, latitude, longitude
and systems_nominal unchanged. -/
theorem orbit_systems_fault (now : Int) (w : World) (h : w.craft.systems_nominal = false) :
    (orbit now w).out = w.out ++ [Event.orbitStart, Event.orbitFault] ∧
    (orbit now w).craft.fault_time = now ∧
    (orbit now w).craft.state = w.craft.state ∧
    (orbit now w).craft.fuel_level = w.craft.fuel_level ∧
    (orbit now w).craft.altitude = w.craft.altitude ∧
    (orbit now w).craft.velocity = w.craft.velocity ∧
    (orbit now w).craft.latitude = w.craft.latitude ∧
    (orbit now w).craft.longitude = w.craft.longitude ∧
    (orbit now w).craft.systems_nominal = w.craft.systems_nominal := by
  rw [orbit_fault_eq now w h]
  exact ⟨rfl, rfl, rfl, rfl, rfl, rfl, rfl, rfl, rfl⟩

/-- Witness for C6: the drained craft, in Orbit with a systems fault, at time 1000. -/
theorem orbit_systems_fault_witness :
    drained.craft.systems_nominal = false ∧
    (orbit 1000 drained).out = [Event.orbitStart, Event.orbitFault] ∧
    (orbit 1000 drained).craft.fault_time = 1000 ∧
    (orbit 1000 drained).craft.state = SpacecraftState.ORBIT := by
  have h := orbit_systems_fault 1000 drained rfl
  exact ⟨rfl, h.1, h.2.1, h.2.2.1⟩

/-- C7: the mission from the initialized craft with the operator tokens `command` and
`confirm` ends Landed, and is reported successful, exactly when `command` is r or R
and `confirm` is y or Y; for every other pair `return_to_earth` is not entered, the
final phase is Orbit and the mission is reported failed. -/
theorem mission_outcome (n : ℕ) (hn : 10 ≤ n) (t_fault t_check : Int)
    (command confirm : Char) :
    ∃ r, main n t_fault t_check command confirm = some r ∧
      (r.craft.state = SpacecraftState.LANDED ↔
        (command = 'r' ∨ command = 'R') ∧ (confirm = 'y' ∨ confirm = 'Y')) ∧
      (r.out.getLast? = some Event.missionComplete ↔
        (command = 'r' ∨ command = 'R') ∧ (confirm = 'y' ∨ confirm = 'Y')) ∧
      (¬ ((command = 'r' ∨ command = 'R') ∧ (confirm = 'y' ∨ confirm = 'Y')) →
        returns r = 0 ∧ r.craft.state = SpacecraftState.ORBIT ∧
        r.out.getLast? = some Event.missionFailed) := by
  obtain ⟨o, o1, o2, o3, hmain⟩ := mission_to_dialogue n hn t_fault t_check command confirm
  rw [hmain]
  by_cases h : (command = 'r' ∨ command = 'R') ∧ (confirm = 'y' ∨ confirm = 'Y')
  · obtain ⟨_, _, r3, r4⟩ :=
      return_from_100_result (emit Event.confirmPrompt (emit Event.commandPrompt o)) o1
    rw [command_dialogue_accept n command confirm o h.1 h.2, r4 n hn]
    have hc := return_exit_craft _ (le_of_eq r3)
    generalize return_exit (return_tick^[10]
      (return_entry (emit Event.confirmPrompt (emit Event.commandPrompt o)))) = r at *
    have hs : r.craft.state = SpacecraftState.LANDED := by rw [hc]
    refine ⟨mission_report r, rfl, ?_, ?_, fun hn => absurd h hn⟩
    · rw [mission_report_craft]; exact ⟨fun _ => h, fun _ => hs⟩
    · rw [mission_report_last, if_pos hs]; exact ⟨fun _ => h, fun _ => rfl⟩
  · obtain ⟨r, r1, r2, r3⟩ := command_dialogue_cancel n command confirm o h
    rw [r1]
    have hs : r.craft.state = SpacecraftState.ORBIT := by rw [r2]; exact o2
    have hne : r.craft.state ≠ SpacecraftState.LANDED := by rw [hs]; decide
    refine ⟨mission_report r, rfl, ?_, ?_, fun _ => ⟨?_, ?_, ?_⟩⟩
    · rw [mission_report_craft]; exact ⟨fun h' => absurd h' hne, fun h' => absurd h' h⟩
    · rw [mission_report_last, if_neg hne]
      exact ⟨fun h' => by simp at h', fun h' => absurd h' h⟩
    · rw [mission_report_returns, r3, o3]
    · rw [mission_report_craft]; exact hs
    · rw [mission_report_last, if_neg hne]

/-- Witness for C7: budget 10, clock values 0 and 5, tokens r and y. -/
theorem mission_outcome_witness :
    (10 : ℕ) ≤ 10 ∧
    ∃ r, main 10 0 5 'r' 'y' = some r ∧ r.craft.state = SpacecraftState.LANDED ∧
      r.out.getLast? = some Event.missionComplete := by
  obtain ⟨r, h1, h2, h3, _⟩ := mission_outcome 10 (le_refl 10) 0 5 'r' 'y'
  exact ⟨le_refl 10, r, h1, h2.mpr ⟨Or.inl rfl, Or.inl rfl⟩, h3.mpr ⟨Or.inl rfl, Or.inl rfl⟩⟩

/-- C8: `safety_checks` leaves the craft and the output unchanged (no emergency is
invoked) when `fuel_level > 10`, `altitude <= 300` and systems are nominal, and it
invokes the emergency procedure within the call whenever `fuel_level <= 10`, or
`altitude > 300`, or systems are not nominal. -/
theorem safety_checks_escalation (w : World) :
    (10 < w.craft.fuel_level ∧ w.craft.altitude ≤ 300 ∧ w.craft.systems_nominal = true →
      safety_checks w = w ∧ emergencies (safety_checks w) = emergencies w) ∧
    (w.craft.fuel_level ≤ 10 ∨ 300 < w.craft.altitude ∨ w.craft.systems_nominal = false →
      emergencies w < emergencies (safety_checks w)) :=
  ⟨fun h => by
      rw [safety_checks_nominal w h.1 h.2.1 h.2.2]
      exact ⟨rfl, rfl⟩,
    safety_checks_fires w⟩

/-- Witness for C8: the cruising craft passes unchanged, the drained craft escalates. -/
theorem safety_checks_escalation_witness :
    safety_checks cruising = cruising ∧
    emergencies drained < emergencies (safety_checks drained) :=
  ⟨((safety_checks_escalation cruising).1
      ⟨by norm_num [cruising], by norm_num [cruising], rfl⟩).1,
    (safety_checks_escalation drained).2 (Or.inl (by norm_num [drained]))⟩

/-- C9 fails on the code: for a craft with `fuel_level == 0` and a systems fault at
altitude 200, `safety_checks` invokes the emergency procedure twice and leaves
altitude 100, while a single `calculate_safe_return` leaves altitude 150. -/
theorem safety_checks_escalates_twice :
    drained.craft.fuel_level = 0 ∧ drained.craft.systems_nominal = false ∧
    emergencies (safety_checks drained) = emergencies drained + 2 ∧
    (safety_checks drained).craft.altitude = 100 ∧
    (calculate_safe_return drained).craft.altitude = 150 ∧
    (safety_checks drained).craft ≠ (calculate_safe_return drained).craft := by
  have hf : drained.craft.fuel_level ≤ 0 := by norm_num [drained]
  have h1 := (calculate_safe_return_no_fuel drained hf).1
  have hc : (calculate_safe_return drained).craft.altitude = 150 := by
    rw [h1]; norm_num [drained]
  have hs := safety_checks_fuel_and_systems drained hf rfl (by norm_num [drained])
  have ha : (safety_checks drained).craft.altitude = 100 := by
    rw [hs, emergency_protocol_log_craft,
      (calculate_safe_return_no_fuel _ (by
        rw [emergency_protocol_log_craft, h1]; norm_num [drained])).1,
      emergency_protocol_log_craft, h1]
    norm_num [drained]
  refine ⟨rfl, rfl, ?_, ha, hc, ?_⟩
  · rw [hs, emergency_protocol_log_emergencies, emergency_protocol_log_emergencies]
  · intro h
    rw [h, hc] at ha
    norm_num at ha

/-- C9, amended: `safety_checks` makes its three tests in order, each on the craft
left by the previous one, and runs the emergency procedure for every test that
fires, so a call escalates at most three times; when exactly one test fires the
craft equals that of a single `calculate_safe_return` on the input, and with
`fuel_level <= 0`, a systems fault and `altitude <= 350` the tests for fuel and
systems both fire and the craft equals that of two executions. -/
theorem safety_checks_escalations (w : World) :
    emergencies (safety_checks w) ≤ emergencies w + 3 ∧
    (emergencies (safety_checks w) = emergencies w + 1 →
      (safety_checks w).craft = (calculate_safe_return w).craft) ∧
    (w.craft.fuel_level ≤ 0 → w.craft.systems_nominal = false → w.craft.altitude ≤ 350 →
      emergencies (safety_checks w) = emergencies w + 2 ∧
      (safety_checks w).craft =
        (calculate_safe_return (calculate_safe_return w)).craft) := by
  refine ⟨?_, ?_, ?_⟩
  · rw [safety_checks_eq]
    dsimp only
    split_ifs <;> (try simp only [emergency_protocol_log_emergencies]) <;> omega
  · rw [safety_checks_eq]
    dsimp only
    intro h
    split_ifs at h ⊢ <;> (try simp only [emergency_protocol_log_emergencies] at h) <;>
      first
        | omega
        | (rw [emergency_protocol_log_craft])
  · intro hf hs ha
    rw [safety_checks_fuel_and_systems w hf hs ha]
    refine ⟨by rw [emergency_protocol_log_emergencies, emergency_protocol_log_emergencies],
      ?_⟩
    rw [emergency_protocol_log_craft]
    exact calculate_safe_return_craft_congr _ _
      (emergency_protocol_log_craft ErrorMsg.fuelCritical w)

/-- Witness for the amended C9 at the drained craft. -/
theorem safety_checks_escalations_witness :
    drained.craft.fuel_level ≤ 0 ∧ drained.craft.systems_nominal = false ∧
    drained.craft.altitude ≤ 350 ∧
    emergencies (safety_checks drained) = emergencies drained + 2 ∧
    (safety_checks drained).craft =
      (calculate_safe_return (calculate_safe_return drained)).craft :=
  ⟨by norm_num [drained], rfl, by norm_num [drained],
    (safety_checks_escalations drained).2.2 (by norm_num [drained]) rfl
      (by norm_num [drained])⟩

/-- C10 fails on the code: a stabilization iteration of a craft in orbit with 2 units
of fuel ends with an empty tank and a systems fault and no emergency procedure is
run; `orbit` then halts, leaving the craft in Orbit with the fault and still without
an emergency. -/
theorem orbit_without_escalation :
    (orbit_tick orbiting_low).craft.fuel_level ≤ 10 ∧
    (orbit_tick orbiting_low).craft.systems_nominal = false ∧
    emergencies (orbit_tick orbiting_low) = emergencies orbiting_low ∧
    (orbit 1000 orbiting_low).craft.fuel_level ≤ 10 ∧
    (orbit 1000 orbiting_low).craft.systems_nominal = false ∧
    (orbit 1000 orbiting_low).craft.state = orbiting_low.craft.state ∧
    emergencies (orbit 1000 orbiting_low) = emergencies orbiting_low := by
  have hdc : ¬ orbiting_low.craft.fuel_level >
      dynamic_consumption 1.0 orbiting_low.craft := by
    norm_num [dynamic_consumption, orbiting_low]
  obtain ⟨_, _, _, t4, t5, _, _⟩ :=
    orbit_tick_spec orbiting_low (by norm_num [orbiting_low]) (by norm_num [orbiting_low])
  rw [consume_fuel_fuel, if_neg hdc] at t4
  rw [consume_fuel_systems] at t5
  have hs : (orbit_tick orbiting_low).craft.systems_nominal = false := by
    rw [t5]; simp [hdc]
  have ho : orbit 1000 orbiting_low =
      orbit_loop 1000 4 (orbit_tick (emit Event.orbitStart orbiting_low)) := by
    simp [orbit, orbit_loop, orbiting_low]
  have hs2 : (orbit_tick (emit Event.orbitStart orbiting_low)).craft.systems_nominal =
      false := by
    rw [(orbit_tick_frame _).2.1, consume_fuel_systems]
    simp [hdc]
  have hf2 : (orbit_tick (emit Event.orbitStart orbiting_low)).craft.fuel_level = 0 := by
    rw [(orbit_tick_spec _ (by norm_num [orbiting_low]) (by norm_num [orbiting_low])).2.2.2.1,
      consume_fuel_fuel, if_neg (by simpa using hdc)]
  have hl : ∀ v : World, v.craft.systems_nominal = false →
      (orbit_loop 1000 4 v).craft = { v.craft with fault_time := 1000 } := by
    intro v hv
    simp [orbit_loop, hv]
  refine ⟨by rw [t4]; norm_num, hs, (orbit_tick_frame _).2.2, ?_, ?_,
    (orbit_frame 1000 _).1, (orbit_frame 1000 _).2⟩
  · rw [ho, hl _ hs2]
    show (orbit_tick (emit Event.orbitStart orbiting_low)).craft.fuel_level ≤ 10
    rw [hf2]; norm_num
  · rw [ho, hl _ hs2]
    exact hs2

/-- C10, amended: the safety check is evaluated on every iteration of `launch`: the
iteration ends with `safety_checks`, which invokes the emergency procedure when the
craft then has `fuel_level <= 10`, `altitude > 300` or a systems fault.  In `orbit`
it is not evaluated: no stabilization iteration, and not `orbit` as a whole, invokes
the emergency procedure or changes the phase, and a craft that enters `orbit` with a
systems fault leaves it with the fault, only `fault_time` being set. -/
theorem escalation_in_launch_not_in_orbit (w : World) (now : Int) :
    launch_tick w = safety_checks (launch_advance w) ∧
    ((launch_advance w).craft.fuel_level ≤ 10 ∨ 300 < (launch_advance w).craft.altitude ∨
        (launch_advance w).craft.systems_nominal = false →
      emergencies w < emergencies (launch_tick w)) ∧
    emergencies (orbit_tick w) = emergencies w ∧
    (orbit_tick w).craft.state = w.craft.state ∧
    emergencies (orbit now w) = emergencies w ∧
    (orbit now w).craft.state = w.craft.state ∧
    (w.craft.systems_nominal = false →
      (orbit_tick w).craft.systems_nominal = false ∧
      (orbit now w).craft = { w.craft with fault_time := now }) := by
  refine ⟨rfl, ?_, (orbit_tick_frame w).2.2, (orbit_tick_frame w).1, (orbit_frame now w).2,
    (orbit_frame now w).1, ?_⟩
  · intro h
    rw [launch_tick_eq, ← launch_advance_emergencies w]
    exact safety_checks_fires _ h
  · intro hs
    rw [(orbit_tick_frame w).2.1, consume_fuel_systems, hs, orbit_fault_eq now w hs]
    exact ⟨rfl, rfl⟩

/-- Witness for the amended C10 at the drained craft and time 1000. -/
theorem escalation_in_launch_not_in_orbit_witness :
    drained.craft.systems_nominal = false ∧
    (orbit_tick drained).craft.systems_nominal = false ∧
    (orbit 1000 drained).craft = { drained.craft with fault_time := 1000 } ∧
    emergencies (orbit 1000 drained) = emergencies drained :=
  ⟨rfl, ((escalation_in_launch_not_in_orbit drained 1000).2.2.2.2.2.2 rfl).1,
    ((escalation_in_launch_not_in_orbit drained 1000).2.2.2.2.2.2 rfl).2,
    (escalation_in_launch_not_in_orbit drained 1000).2.2.2.2.1⟩

/-- C12 fails on the code: for a craft with velocity -100 the consumption computed
by `consume_fuel` is negative, and a launch iteration raises fuel from 50 to 58. -/
theorem launch_tick_regenerates :
    dynamic_consumption 2.0 reversing.craft = -8 ∧
    (consume_fuel 2.0 reversing).craft.fuel_level = 58 ∧
    (launch_tick reversing).craft.fuel_level = 58 ∧
    reversing.craft.fuel_level < (launch_tick reversing).craft.fuel_level := by
  have hd : dynamic_consumption 2.0 reversing.craft = -8 := by
    norm_num [dynamic_consumption, reversing]
  have hf : reversing.craft.fuel_level = 50 := rfl
  have hc : (consume_fuel 2.0 reversing).craft.fuel_level = 58 := by
    rw [consume_fuel_fuel, hd, hf]; norm_num
  have ht : (launch_tick reversing).craft.fuel_level = 58 := by
    rw [launch_tick_eq, safety_checks_nominal]
    · rw [launch_advance_fuel, hd, hf]; norm_num
    · rw [launch_advance_fuel, hd, hf]; norm_num
    · rw [launch_advance_altitude]; norm_num [reversing]
    · rw [launch_advance_systems, hd, hf]; norm_num [reversing]
  exact ⟨hd, hc, ht, by rw [ht, hf]; norm_num⟩

/-- C12, amended: for every craft with `fuel_level >= 0`, `velocity >= 0` and
`altitude >= 0`, an iteration of the Launch, Orbit, Return or forced-descent loop
does not raise `fuel_level`. -/
theorem fuel_never_regenerates (w : World) (hf : 0 ≤ w.craft.fuel_level)
    (hv : 0 ≤ w.craft.velocity) (ha : 0 ≤ w.craft.altitude) :
    (launch_tick w).craft.fuel_level ≤ w.craft.fuel_level ∧
    (orbit_tick w).craft.fuel_level ≤ w.craft.fuel_level ∧
    (return_tick w).craft.fuel_level ≤ w.craft.fuel_level ∧
    (descent_tick w).craft.fuel_level ≤ w.craft.fuel_level := by
  have hd : ∀ b : ℚ, 0 ≤ b → 0 ≤ dynamic_consumption b w.craft := fun b hb =>
    le_trans hb (dynamic_consumption_ge b w.craft hv ha)
  have h2 := consume_fuel_fuel_le 2.0 w hf (hd _ (by norm_num))
  have h1 := consume_fuel_fuel_le 1.0 w hf (hd _ (by norm_num))
  have h15 := consume_fuel_fuel_le 1.5 w hf (hd _ (by norm_num))
  refine ⟨?_, ?_, ?_, ?_⟩
  · have hadv : (launch_advance w).craft.fuel_level = (consume_fuel 2.0 w).craft.fuel_level := by
      rw [launch_advance_fuel, consume_fuel_fuel]
    rw [launch_tick_eq]
    exact le_trans (safety_checks_fuel_le _ (by rw [hadv]; exact h2.1)).2
      (by rw [hadv]; exact h2.2)
  · rw [orbit_tick_fuel]; exact h1.2
  · rw [(return_tick_frame w).2.1]; exact h15.2
  · rw [descent_tick_fuel, ← consume_fuel_fuel]; exact h1.2

/-- Witness for the amended C12 at the cruising craft. -/
theorem fuel_never_regenerates_witness :
    0 ≤ cruising.craft.fuel_level ∧ 0 ≤ cruising.craft.velocity ∧
    0 ≤ cruising.craft.altitude ∧
    (launch_tick cruising).craft.fuel_level ≤ cruising.craft.fuel_level ∧
    (orbit_tick cruising).craft.fuel_level ≤ cruising.craft.fuel_level ∧
    (return_tick cruising).craft.fuel_level ≤ cruising.craft.fuel_level ∧
    (descent_tick cruising).craft.fuel_level ≤ cruising.craft.fuel_level :=
  ⟨by norm_num [cruising], by norm_num [cruising], by norm_num [cruising],
    fuel_never_regenerates cruising (by norm_num [cruising]) (by norm_num [cruising])
      (by norm_num [cruising])⟩

/-- C13 fails on the code: a return iteration of a craft with an empty tank at
altitude 5 and velocity 0 takes the altitude below 0, and `validate_return_route`
then sets altitude 100 and velocity 1. -/
theorem return_tick_climbs_without_fuel :
    gliding.craft.fuel_level = 0 ∧
    (return_tick gliding).craft.altitude = 100 ∧
    (return_tick gliding).craft.velocity = 1 ∧
    gliding.craft.altitude < (return_tick gliding).craft.altitude ∧
    gliding.craft.velocity < (return_tick gliding).craft.velocity := by
  have ha : (return_tick gliding).craft.altitude = 100 := by
    rw [return_tick_altitude]; norm_num [gliding]
  have hv : (return_tick gliding).craft.velocity = 1 := by
    rw [return_tick_velocity]; norm_num [gliding]
  refine ⟨rfl, ha, hv, ?_, ?_⟩
  · rw [ha]; norm_num [gliding]
  · rw [hv]; norm_num [gliding]

/-- C13, amended: for every craft with `fuel_level == 0`, `launch` runs no iteration
and leaves altitude and velocity unchanged; route validation and an Orbit iteration
leave altitude and velocity unchanged when `0 <= altitude <= 300`; a Return
iteration lowers altitude by 10 and does not raise velocity when
`10 <= altitude <= 310` and `velocity >= 0`; and a Return iteration that takes the
altitude below 0 or above 300 ends with altitude 100 and velocity 1. -/
theorem empty_tank_motion (w : World) (hf : w.craft.fuel_level = 0) :
    (∀ n, launch n w = some (launch_exit (launch_entry w))) ∧
    (launch_exit (launch_entry w)).craft.altitude = w.craft.altitude ∧
    (launch_exit (launch_entry w)).craft.velocity = w.craft.velocity ∧
    (0 ≤ w.craft.altitude ∧ w.craft.altitude ≤ 300 →
      (validate_return_route w).craft.altitude = w.craft.altitude ∧
      (validate_return_route w).craft.velocity = w.craft.velocity ∧
      (orbit_tick w).craft.altitude = w.craft.altitude ∧
      (orbit_tick w).craft.velocity = w.craft.velocity) ∧
    (10 ≤ w.craft.altitude ∧ w.craft.altitude ≤ 310 ∧ 0 ≤ w.craft.velocity →
      (return_tick w).craft.altitude = w.craft.altitude - 10 ∧
      (return_tick w).craft.velocity ≤ w.craft.velocity) ∧
    (w.craft.altitude - 10 > 300 ∨ w.craft.altitude - 10 < 0 →
      (return_tick w).craft.altitude = 100 ∧ (return_tick w).craft.velocity = 1) := by
  have hcond : launch_cond (launch_entry w) = false := by
    rw [launch_cond_false_iff]
    right
    show w.craft.fuel_level ≤ 0
    rw [hf]
  refine ⟨fun n => launch_no_tick n w hcond, ?_, ?_, ?_, ?_, ?_⟩
  · rw [launch_exit_craft]; rfl
  · rw [launch_exit_craft]; rfl
  · rintro ⟨h1, h2⟩
    have hn : ¬ (w.craft.altitude > 300 ∨ w.craft.altitude < 0) := by
      rw [not_or, not_lt, not_lt]; exact ⟨h2, h1⟩
    obtain ⟨o1, o2, _⟩ := orbit_tick_spec w h1 h2
    rw [validate_return_route_altitude, validate_return_route_velocity, if_neg hn, if_neg hn]
    exact ⟨rfl, rfl, o1, o2⟩
  · rintro ⟨h1, h2, h3⟩
    have hn : ¬ (w.craft.altitude - 10 > 300 ∨ w.craft.altitude - 10 < 0) := by
      rw [not_or, not_lt, not_lt]; constructor <;> linarith
    rw [return_tick_altitude, return_tick_velocity, if_neg hn, if_neg hn]
    refine ⟨rfl, ?_⟩
    split_ifs
    · exact h3
    · norm_num
  · intro h
    rw [return_tick_altitude, return_tick_velocity, if_pos h, if_pos h]
    exact ⟨rfl, rfl⟩

/-- Witness for the amended C13 at the drained craft (empty tank, altitude 200). -/
theorem empty_tank_motion_witness :
    drained.craft.fuel_level = 0 ∧
    (10 ≤ drained.craft.altitude ∧ drained.craft.altitude ≤ 310 ∧
      0 ≤ drained.craft.velocity) ∧
    (return_tick drained).craft.altitude = drained.craft.altitude - 10 ∧
    (return_tick drained).craft.velocity ≤ drained.craft.velocity :=
  ⟨rfl, by norm_num [drained],
    (empty_tank_motion drained rfl).2.2.2.2.1 (by norm_num [drained])⟩

/-- C15: `validate_return_route` leaves phase, fuel_level and systems_nominal
unchanged; when the input altitude is above 300 or below 0 it sets altitude to 100
and velocity to 1, and otherwise (altitude 0 and altitude 300 included) it leaves
altitude and velocity unchanged. -/
theorem validate_return_route_effect (w : World) :
    (validate_return_route w).craft.state = w.craft.state ∧
    (validate_return_route w).craft.fuel_level = w.craft.fuel_level ∧
    (validate_return_route w).craft.systems_nominal = w.craft.systems_nominal ∧
    (w.craft.altitude > 300 ∨ w.craft.altitude < 0 →
      (validate_return_route w).craft.altitude = 100 ∧
      (validate_return_route w).craft.velocity = 1) ∧
    (0 ≤ w.craft.altitude ∧ w.craft.altitude ≤ 300 →
      (validate_return_route w).craft.altitude = w.craft.altitude ∧
      (validate_return_route w).craft.velocity = w.craft.velocity) := by
  obtain ⟨f1, f2, f3, _⟩ := validate_return_route_frame w
  rw [validate_return_route_altitude, validate_return_route_velocity]
  refine ⟨f1, f2, f3, ?_, ?_⟩
  · intro h
    rw [if_pos h, if_pos h]
    exact ⟨rfl, rfl⟩
  · rintro ⟨h1, h2⟩
    have hn : ¬ (w.craft.altitude > 300 ∨ w.craft.altitude < 0) := by
      rw [not_or, not_lt, not_lt]; exact ⟨h2, h1⟩
    rw [if_neg hn, if_neg hn]
    exact ⟨rfl, rfl⟩

/-- Witness for C15: the cruising craft (altitude 100) keeps altitude and velocity. -/
theorem validate_return_route_effect_witness :
    (0 ≤ cruising.craft.altitude ∧ cruising.craft.altitude ≤ 300) ∧
    (validate_return_route cruising).craft.altitude = cruising.craft.altitude ∧
    (validate_return_route cruising).craft.velocity = cruising.craft.velocity :=
  ⟨by norm_num [cruising],
    (validate_return_route_effect cruising).2.2.2.2 (by norm_num [cruising])⟩

/-- C16: a systems fault is sticky: with `systems_nominal == false`, the flag is
still false after `consume_fuel`, `update_coordinates`, `validate_return_route`,
`safety_checks`, `calculate_safe_return`, `emergency_protocol`, `orbit`, `launch`
and `return_to_earth` (the last two return for every large enough budget); only
`activate_backup_system` sets it to true. -/
theorem systems_fault_sticky (w : World) (h : w.craft.systems_nominal = false) :
    (∀ b, (consume_fuel b w).craft.systems_nominal = false) ∧
    (update_coordinates w).craft.systems_nominal = false ∧
    (validate_return_route w).craft.systems_nominal = false ∧
    (safety_checks w).craft.systems_nominal = false ∧
    (calculate_safe_return w).craft.systems_nominal = false ∧
    (emergency_protocol w).craft.systems_nominal = false ∧
    (∀ now, (orbit now w).craft.systems_nominal = false) ∧
    (∃ N, ∀ n, N ≤ n → ∃ r, launch n w = some r ∧ r.craft.systems_nominal = false) ∧
    (∃ N, ∀ n, N ≤ n → ∃ r, return_to_earth n w = some r ∧
      r.craft.systems_nominal = false) ∧
    (activate_backup_system w).1.craft.systems_nominal = true := by
  refine ⟨?_, ?_, ?_, (safety_checks_sticky w).1 h, (calculate_safe_return_sticky w).1 h,
    ?_, ?_, ?_, ?_, rfl⟩
  · intro b
    rw [consume_fuel_systems, h]; rfl
  · rw [(update_coordinates_frame w).2.2.2.2.2.1]; exact h
  · rw [validate_return_route_systems]; exact h
  · rw [emergency_protocol_craft]; exact (calculate_safe_return_sticky w).1 h
  · intro now
    rw [orbit_fault_eq now w h]; exact h
  · obtain ⟨k, _, _, hn⟩ := launch_result w
    refine ⟨k, fun n hkn => ⟨_, hn n hkn, ?_⟩⟩
    rw [launch_exit_craft]
    exact launch_iterate_systems (launch_entry w) h k
  · obtain ⟨k, _, _, _, _, hn⟩ := return_to_earth_result w
    refine ⟨k, fun n hkn => ⟨_, (hn n hkn).1, ?_⟩⟩
    rw [(hn n hkn).2]
    exact (return_iterate_frame (return_entry w) k).2.2 h

/-- Witness for C16 at the drained craft. -/
theorem systems_fault_sticky_witness :
    drained.craft.systems_nominal = false ∧
    (safety_checks drained).craft.systems_nominal = false ∧
    (calculate_safe_return drained).craft.systems_nominal = false ∧
    (activate_backup_system drained).1.craft.systems_nominal = true :=
  ⟨rfl, (systems_fault_sticky drained rfl).2.2.2.1, (systems_fault_sticky drained rfl).2.2.2.2.1,
    (systems_fault_sticky drained rfl).2.2.2.2.2.2.2.2.2⟩

/-- C19: the coordinate envelope is kept by the coordinate steps of an orbit
iteration: with latitude in [-90, 90], longitude in (-180, 180] and
`0 <= velocity <= 36000`, after `update_coordinates` followed by
`validate_return_route` latitude is in [-90, 90] and longitude in (-180, 180]. -/
theorem orbit_coordinates_envelope (w : World)
    (_hlat : -90 ≤ w.craft.latitude ∧ w.craft.latitude ≤ 90)
    (hlon : -180 < w.craft.longitude ∧ w.craft.longitude ≤ 180)
    (hv : 0 ≤ w.craft.velocity ∧ w.craft.velocity ≤ 36000) :
    (-90 ≤ (validate_return_route (update_coordinates w)).craft.latitude ∧
      (validate_return_route (update_coordinates w)).craft.latitude ≤ 90) ∧
    (-180 < (validate_return_route (update_coordinates w)).craft.longitude ∧
      (validate_return_route (update_coordinates w)).craft.longitude ≤ 180) := by
  have h1 : 0 ≤ w.craft.velocity * 0.01 := mul_nonneg hv.1 (by norm_num)
  have h2 : w.craft.velocity * 0.01 ≤ 360 := by
    have := hv.2
    norm_num
    linarith
  have hu : -180 < (update_coordinates w).craft.longitude ∧
      (update_coordinates w).craft.longitude ≤ 180 := by
    rw [update_coordinates_longitude]
    split_ifs <;> constructor <;> linarith [hlon.1, hlon.2]
  rw [validate_return_route_latitude, validate_return_route_longitude]
  constructor
  · split_ifs <;> constructor <;> linarith
  · rw [if_neg (not_lt.mpr hu.2), if_neg (not_lt.mpr (le_of_lt hu.1))]
    exact hu

/-- Witness for C19 at the cruising craft. -/
theorem orbit_coordinates_envelope_witness :
    (-90 ≤ cruising.craft.latitude ∧ cruising.craft.latitude ≤ 90) ∧
    (-180 < cruising.craft.longitude ∧ cruising.craft.longitude ≤ 180) ∧
    (0 ≤ cruising.craft.velocity ∧ cruising.craft.velocity ≤ 36000) ∧
    (-90 ≤ (validate_return_route (update_coordinates cruising)).craft.latitude ∧
      (validate_return_route (update_coordinates cruising)).craft.latitude ≤ 90) ∧
    (-180 < (validate_return_route (update_coordinates cruising)).craft.longitude ∧
      (validate_return_route (update_coordinates cruising)).craft.longitude ≤ 180) :=
  ⟨by norm_num [cruising], by norm_num [cruising], by norm_num [cruising],
    orbit_coordinates_envelope cruising (by norm_num [cruising]) (by norm_num [cruising])
      (by norm_num [cruising])⟩

/-- C20: `consume_fuel` keeps `fuel_level` in its domain: with
`0 <= fuel_level <= 100`, `altitude >= 0`, `velocity >= 0` and a base consumption
`>= 0`, the new fuel level is between 0 and the old one; and when the computed
consumption is at least the fuel level (equality included) the tank ends at 0 with a
systems fault. -/
theorem consume_fuel_domain (b : ℚ) (w : World)
    (hf : 0 ≤ w.craft.fuel_level ∧ w.craft.fuel_level ≤ 100)
    (ha : 0 ≤ w.craft.altitude) (hv : 0 ≤ w.craft.velocity) (hb : 0 ≤ b) :
    0 ≤ (consume_fuel b w).craft.fuel_level ∧
    (consume_fuel b w).craft.fuel_level ≤ w.craft.fuel_level ∧
    w.craft.fuel_level ≤ 100 ∧
    (w.craft.fuel_level ≤ dynamic_consumption b w.craft →
      (consume_fuel b w).craft.fuel_level = 0 ∧
      (consume_fuel b w).craft.systems_nominal = false) := by
  have hd : 0 ≤ dynamic_consumption b w.craft :=
    le_trans hb (dynamic_consumption_ge b w.craft hv ha)
  obtain ⟨h1, h2⟩ := consume_fuel_fuel_le b w hf.1 hd
  refine ⟨h1, h2, hf.2, ?_⟩
  intro h
  rw [consume_fuel_fuel, consume_fuel_systems, if_neg (not_lt.mpr h)]
  simp [not_lt.mpr h]

/-- Witness for C20: the craft with a tank of 2 in orbit, whose orbit consumption
is 3. -/
theorem consume_fuel_domain_witness :
    (0 ≤ orbiting_low.craft.fuel_level ∧ orbiting_low.craft.fuel_level ≤ 100) ∧
    0 ≤ orbiting_low.craft.altitude ∧ 0 ≤ orbiting_low.craft.velocity ∧ (0 : ℚ) ≤ 1.0 ∧
    orbiting_low.craft.fuel_level ≤ dynamic_consumption 1.0 orbiting_low.craft ∧
    (consume_fuel 1.0 orbiting_low).craft.fuel_level = 0 ∧
    (consume_fuel 1.0 orbiting_low).craft.systems_nominal = false := by
  have hle : orbiting_low.craft.fuel_level ≤ dynamic_consumption 1.0 orbiting_low.craft := by
    norm_num [dynamic_consumption, orbiting_low]
  exact ⟨by norm_num [orbiting_low], by norm_num [orbiting_low], by norm_num [orbiting_low],
    by norm_num, hle,
    (consume_fuel_domain 1.0 orbiting_low (by norm_num [orbiting_low])
      (by norm_num [orbiting_low]) (by norm_num [orbiting_low]) (by norm_num)).2.2.2 hle⟩

end SpacecraftSim
